import Mathlib

/-!
# Register-mapped telemetry decoder of the Modbus poller

A shallow embedding of `internal/modbus/pm2120.go`, `internal/modbus/inverter.go`
and `internal/modbus/client.go`.

Conventions of the embedding

* a Go `byte` is a `Fin 256`; a `[]byte` is a `List Byte`;
* unsigned machine integers are natural numbers reduced `% 2 ^ w` where the Go
  operation can overflow, `int64` is an `Int` in `[-2^63, 2^63)`;
* a `float32` is represented by its IEEE-754 bit pattern
  (`math.Float32frombits` is a bit-exact reinterpretation);
* a Go `error` is a `GoError` (message plus the error it wraps); the `error`
  interface value `nil` is `none`; a nil pointer is `none`;
* a run-time panic (slice index out of range) is the `Except.error` outcome;
* the Modbus transport is a state machine: a read takes the transport state and
  returns the `([]byte, error)` pair together with the next state;
* `log.Printf` calls write to the process log only and are not modelled.
-/

namespace Modbus

/-! ## Basic Go values -/

/-- Go `byte`. -/
abbrev Byte := Fin 256

/-- A run-time panic of the Go program. -/
inductive Panic where
  /-- Slice index out of range: the index used and the length of the slice. -/
  | indexOutOfRange (index length : Nat)
  deriving DecidableEq, Repr

/-- A Go `error` value: either an error that wraps nothing (`errors.New`, a
`fmt.Errorf` without `%w`), or the `*fmt.wrapError` made by a `fmt.Errorf`
with one `%w` verb, which keeps the formatted text and the wrapped error. -/
inductive GoError where
  | errorString (s : String)
  | wrapError (msg : String) (err : GoError)
  deriving DecidableEq, Repr

namespace GoError

/-- The method `Error()`: the text of the error. -/
def Error : GoError → String
  | errorString s => s
  | wrapError msg _ => msg

/-- The function `errors.Unwrap`. -/
def Unwrap : GoError → Option GoError
  | errorString _ => none
  | wrapError _ err => some err

end GoError

/-- The verb `%v` applied to a value of type `error`: the text of the error,
and `<nil>` for the nil error. -/
def fmtV : Option GoError → String
  | none => "<nil>"
  | some e => e.Error

/-- Go `float32`, represented by its IEEE-754 binary32 bit pattern. -/
structure float32 where
  bits : Nat
  deriving DecidableEq, Repr

/-- The function `math.Float32frombits` on a `uint32`. -/
def Float32frombits (b : Nat) : float32 := ⟨b % 2 ^ 32⟩

/-- The real number denoted by a binary32 bit pattern (IEEE-754): `none` for
infinities and NaNs. -/
def float32.toRat (f : float32) : Option ℚ :=
  let sign : ℚ := if f.bits / 2 ^ 31 % 2 = 1 then -1 else 1
  let e : Nat := f.bits / 2 ^ 23 % 2 ^ 8
  let m : Nat := f.bits % 2 ^ 23
  if e = 255 then none
  else if e = 0 then some (sign * (m : ℚ) * (2 : ℚ) ^ (-149 : Int))
  else some (sign * ((2 ^ 23 + m : Nat) : ℚ) * (2 : ℚ) ^ ((e : Int) - 150))

/-- The conversion `int64(u)` of a `uint64`: two's-complement reinterpretation. -/
def int64OfUint64 (u : Nat) : Int :=
  if u % 2 ^ 64 < 2 ^ 63 then ((u % 2 ^ 64 : Nat) : Int)
  else ((u % 2 ^ 64 : Nat) : Int) - 2 ^ 64

/-- The conversion `uint64(v)` of an `int64`. -/
def uint64OfInt64 (v : Int) : Nat := (v % 2 ^ 64).toNat

/-! ## `encoding/binary`, big-endian byte order -/

namespace BigEndian

/-- Go `binary.BigEndian.Uint16`: panics when `b` has fewer than 2 bytes. -/
def Uint16 (b : List Byte) : Except Panic Nat :=
  match b with
  | b0 :: b1 :: _ => .ok (b1.val ||| (b0.val <<< 8) % 2 ^ 16)
  | _ => .error (.indexOutOfRange 1 b.length)

/-- Go `binary.BigEndian.Uint32`: panics when `b` has fewer than 4 bytes. -/
def Uint32 (b : List Byte) : Except Panic Nat :=
  match b with
  | b0 :: b1 :: b2 :: b3 :: _ =>
    .ok (b3.val ||| (b2.val <<< 8) % 2 ^ 32 ||| (b1.val <<< 16) % 2 ^ 32
          ||| (b0.val <<< 24) % 2 ^ 32)
  | _ => .error (.indexOutOfRange 3 b.length)

/-- Go `binary.BigEndian.Uint64`: panics when `b` has fewer than 8 bytes. -/
def Uint64 (b : List Byte) : Except Panic Nat :=
  match b with
  | b0 :: b1 :: b2 :: b3 :: b4 :: b5 :: b6 :: b7 :: _ =>
    .ok (b7.val ||| (b6.val <<< 8) % 2 ^ 64 ||| (b5.val <<< 16) % 2 ^ 64
          ||| (b4.val <<< 24) % 2 ^ 64 ||| (b3.val <<< 32) % 2 ^ 64
          ||| (b2.val <<< 40) % 2 ^ 64 ||| (b1.val <<< 48) % 2 ^ 64
          ||| (b0.val <<< 56) % 2 ^ 64)
  | _ => .error (.indexOutOfRange 7 b.length)

/-- The conversion `byte(n)` of an unsigned integer. -/
def byte (n : Nat) : Byte := ⟨n % 256, Nat.mod_lt _ (by decide)⟩

/-- Go `binary.BigEndian.PutUint16`, as the two bytes written. -/
def PutUint16 (v : Nat) : List Byte := [byte (v >>> 8), byte v]

/-- Go `binary.BigEndian.PutUint32`, as the four bytes written. -/
def PutUint32 (v : Nat) : List Byte :=
  [byte (v >>> 24), byte (v >>> 16), byte (v >>> 8), byte v]

/-- Go `binary.BigEndian.PutUint64`, as the eight bytes written. -/
def PutUint64 (v : Nat) : List Byte :=
  [byte (v >>> 56), byte (v >>> 48), byte (v >>> 40), byte (v >>> 32),
   byte (v >>> 24), byte (v >>> 16), byte (v >>> 8), byte v]

end BigEndian

/-! ## Type decoders (`pm2120.go`, helper functions) -/

/-- Function `bytesToFloat32`: the bits of the big-endian `uint32` of `b`, as a
`float32`. -/
def bytesToFloat32 (b : List Byte) : Except Panic float32 := do
  let bits ← BigEndian.Uint32 b
  return Float32frombits bits

/-- Function `bytesToInt64`: the big-endian `uint64` of `b`, converted to `int64`. -/
def bytesToInt64 (b : List Byte) : Except Panic Int := do
  return int64OfUint64 (← BigEndian.Uint64 b)

/-- Function `bytesToUint16`: the big-endian `uint16` of `b`. -/
def bytesToUint16 (b : List Byte) : Except Panic Nat :=
  BigEndian.Uint16 b

/-! ## The Modbus transport -/

/-- The pair `(results []byte, err error)` returned by a register read. -/
structure Response where
  results : List Byte
  err : Option GoError
  deriving DecidableEq, Repr

/-- Executions of the Go code: they thread the state of the transport and may
panic. -/
abbrev Exec (σ : Type) := StateT σ (Except Panic)

/-- The type `*RTUClient` used by `pm2120.go`: its declaration is not part of the
sources, only the method `ReadHoldingRegisters(slaveID, addr, quantity)` is
used. The transport is an arbitrary state machine over `σ`. -/
structure RTUClient (σ : Type) where
  transport : (slaveID address quantity : Nat) → σ → Response × σ

/-- The method call `client.ReadHoldingRegisters(slaveID, addr, quantity)`. -/
def RTUClient.ReadHoldingRegisters {σ : Type} (client : RTUClient σ)
    (slaveID address quantity : Nat) : Exec σ Response :=
  fun s => .ok (client.transport slaveID address quantity s)

/-- A transport without state: a function from (slave id, address, quantity)
to the response. -/
def RTUClient.ofFun (t : Nat → Nat → Nat → Response) : RTUClient Unit :=
  ⟨fun slaveID address quantity s => (t slaveID address quantity, s)⟩

/-! ## Register map of the PM2120 (`pm2120.go`, zero-based addresses) -/

def addrCurrentA : Nat := 2999
def addrCurrentB : Nat := 3001
def addrCurrentC : Nat := 3003
def addrCurrentN : Nat := 3005
def addrCurrentAvg : Nat := 3009
def addrVoltageAB : Nat := 3019
def addrVoltageBC : Nat := 3021
def addrVoltageCA : Nat := 3023
def addrVoltageLLAvg : Nat := 3025
def addrVoltageAN : Nat := 3027
def addrVoltageBN : Nat := 3029
def addrVoltageCN : Nat := 3031
def addrVoltageLNAvg : Nat := 3035
def addrActivePowerA : Nat := 3053
def addrActivePowerB : Nat := 3055
def addrActivePowerC : Nat := 3057
def addrActivePowerTotal : Nat := 3059
def addrReactivePowerA : Nat := 3061
def addrReactivePowerB : Nat := 3063
def addrReactivePowerC : Nat := 3065
def addrReactivePowerTotal : Nat := 3067
def addrApparentPowerA : Nat := 3069
def addrApparentPowerB : Nat := 3071
def addrApparentPowerC : Nat := 3073
def addrApparentPowerTotal : Nat := 3075
def addrPowerFactorA : Nat := 3077
def addrPowerFactorB : Nat := 3079
def addrPowerFactorC : Nat := 3081
def addrPowerFactorTotal : Nat := 3083
def addrFrequency : Nat := 3109
def addrActiveEnergyDelivered : Nat := 3203
def addrActiveEnergyReceived : Nat := 3207
def addrReactiveEnergyDelivered : Nat := 3219
def addrReactiveEnergyReceived : Nat := 3223
def addrApparentEnergyDelivered : Nat := 3235
def addrApparentEnergyReceived : Nat := 3239
def addrTHDCurrentA : Nat := 21299
def addrTHDCurrentB : Nat := 21301
def addrTHDCurrentC : Nat := 21303
def addrTHDVoltageAB : Nat := 21321
def addrTHDVoltageBC : Nat := 21323
def addrTHDVoltageCA : Nat := 21325
def addrTHDVoltageAN : Nat := 21329
def addrTHDVoltageBN : Nat := 21331
def addrTHDVoltageCN : Nat := 21333

/-- Type `PM2120Data`: every field is a pointer, `nil` (here `none`) meaning that the
value could not be read. -/
structure PM2120Data where
  CurrentA : Option float32 := none
  CurrentB : Option float32 := none
  CurrentC : Option float32 := none
  CurrentN : Option float32 := none
  CurrentAvg : Option float32 := none
  VoltageAB : Option float32 := none
  VoltageBC : Option float32 := none
  VoltageCA : Option float32 := none
  VoltageLLAvg : Option float32 := none
  VoltageAN : Option float32 := none
  VoltageBN : Option float32 := none
  VoltageCN : Option float32 := none
  VoltageLNAvg : Option float32 := none
  ActivePowerA : Option float32 := none
  ActivePowerB : Option float32 := none
  ActivePowerC : Option float32 := none
  ActivePowerTotal : Option float32 := none
  ReactivePowerA : Option float32 := none
  ReactivePowerB : Option float32 := none
  ReactivePowerC : Option float32 := none
  ReactivePowerTotal : Option float32 := none
  ApparentPowerA : Option float32 := none
  ApparentPowerB : Option float32 := none
  ApparentPowerC : Option float32 := none
  ApparentPowerTotal : Option float32 := none
  PowerFactorA : Option float32 := none
  PowerFactorB : Option float32 := none
  PowerFactorC : Option float32 := none
  PowerFactorTotal : Option float32 := none
  Frequency : Option float32 := none
  ActiveEnergyDelivered : Option Int := none
  ActiveEnergyReceived : Option Int := none
  ReactiveEnergyDelivered : Option Int := none
  ReactiveEnergyReceived : Option Int := none
  ApparentEnergyDelivered : Option Int := none
  ApparentEnergyReceived : Option Int := none
  THDCurrentA : Option float32 := none
  THDCurrentB : Option float32 := none
  THDCurrentC : Option float32 := none
  THDVoltageAB : Option float32 := none
  THDVoltageBC : Option float32 := none
  THDVoltageCA : Option float32 := none
  THDVoltageAN : Option float32 := none
  THDVoltageBN : Option float32 := none
  THDVoltageCN : Option float32 := none
  deriving DecidableEq, Repr


/-! ## Read-and-decode helpers (`pm2120.go`) -/

/-- Function `readAndDecodeFloat32`: read 2 registers and decode them as a `float32`. -/
def readAndDecodeFloat32 {σ : Type} (client : RTUClient σ) (slaveID addr : Nat)
    (fieldName : String) : Exec σ (Option float32 × Option GoError) := do
  let r ← client.ReadHoldingRegisters slaveID addr 2
  match r.err with
  | some err =>
    return (none, some (.wrapError ("đọc " ++ fieldName ++ " lỗi: " ++ err.Error) err))
  | none =>
    if r.results.length ≠ 4 then
      return (none,
        some (.errorString ("đọc " ++ fieldName ++ " lỗi: độ dài kết quả không đúng")))
    else
      let val ← liftM (bytesToFloat32 r.results)
      return (some val, none)

/-- Function `readAndDecodeInt64`: read 4 registers and decode them as an `int64`. -/
def readAndDecodeInt64 {σ : Type} (client : RTUClient σ) (slaveID addr : Nat)
    (fieldName : String) : Exec σ (Option Int × Option GoError) := do
  let r ← client.ReadHoldingRegisters slaveID addr 4
  match r.err with
  | some err =>
    return (none, some (.wrapError ("đọc " ++ fieldName ++ " lỗi: " ++ err.Error) err))
  | none =>
    if r.results.length ≠ 8 then
      return (none,
        some (.errorString ("đọc " ++ fieldName ++ " lỗi: độ dài kết quả không đúng")))
    else
      let val ← liftM (bytesToInt64 r.results)
      return (some val, none)

/-- Function `readAndDecodeUint16`: read 1 register and decode it as a `uint16`. -/
def readAndDecodeUint16 {σ : Type} (client : RTUClient σ) (slaveID addr : Nat)
    (fieldName : String) : Exec σ (Option Nat × Option GoError) := do
  let r ← client.ReadHoldingRegisters slaveID addr 1
  match r.err with
  | some err =>
    return (none, some (.wrapError ("đọc " ++ fieldName ++ " lỗi: " ++ err.Error) err))
  | none =>
    if r.results.length ≠ 2 then
      return (none,
        some (.errorString ("đọc " ++ fieldName ++ " lỗi: độ dài kết quả không đúng")))
    else
      let val ← liftM (bytesToUint16 r.results)
      return (some val, none)

/-- The statement
`if err != nil { errAccumulator = fmt.Errorf("%v; %w", errAccumulator, err) }`
as the new value of `errAccumulator`. -/
def accumulate (errAccumulator err : Option GoError) : Option GoError :=
  match err with
  | none => errAccumulator
  | some e => some (.wrapError (fmtV errAccumulator ++ "; " ++ e.Error) e)

/-! ## The extended snapshot builder (`pm2120.go`) -/

/-- Function `ReadPM2120Data`: one read per field, in the order of the source. The result
of the statement `data.X, err = readAndDecode...(client, slaveID, addrX, "X")` is
bound to `rX`, whose first component is stored in field `X` of `data`. The read
of `CurrentN` is commented out in the source, so that field keeps its zero value
`nil`. -/
def ReadPM2120Data {σ : Type} (client : RTUClient σ) (slaveID : Nat) :
    Exec σ (PM2120Data × Option GoError) := do
  let errAccumulator : Option GoError := none
  let rCurrentA ← readAndDecodeFloat32 client slaveID addrCurrentA "CurrentA"
  let errAccumulator := accumulate errAccumulator rCurrentA.2
  let rCurrentB ← readAndDecodeFloat32 client slaveID addrCurrentB "CurrentB"
  let errAccumulator := accumulate errAccumulator rCurrentB.2
  let rCurrentC ← readAndDecodeFloat32 client slaveID addrCurrentC "CurrentC"
  let errAccumulator := accumulate errAccumulator rCurrentC.2
  let rCurrentAvg ← readAndDecodeFloat32 client slaveID addrCurrentAvg "CurrentAvg"
  let errAccumulator := accumulate errAccumulator rCurrentAvg.2
  let rVoltageAB ← readAndDecodeFloat32 client slaveID addrVoltageAB "VoltageAB"
  let errAccumulator := accumulate errAccumulator rVoltageAB.2
  let rVoltageBC ← readAndDecodeFloat32 client slaveID addrVoltageBC "VoltageBC"
  let errAccumulator := accumulate errAccumulator rVoltageBC.2
  let rVoltageCA ← readAndDecodeFloat32 client slaveID addrVoltageCA "VoltageCA"
  let errAccumulator := accumulate errAccumulator rVoltageCA.2
  let rVoltageLLAvg ← readAndDecodeFloat32 client slaveID addrVoltageLLAvg "VoltageLLAvg"
  let errAccumulator := accumulate errAccumulator rVoltageLLAvg.2
  let rVoltageAN ← readAndDecodeFloat32 client slaveID addrVoltageAN "VoltageAN"
  let errAccumulator := accumulate errAccumulator rVoltageAN.2
  let rVoltageBN ← readAndDecodeFloat32 client slaveID addrVoltageBN "VoltageBN"
  let errAccumulator := accumulate errAccumulator rVoltageBN.2
  let rVoltageCN ← readAndDecodeFloat32 client slaveID addrVoltageCN "VoltageCN"
  let errAccumulator := accumulate errAccumulator rVoltageCN.2
  let rVoltageLNAvg ← readAndDecodeFloat32 client slaveID addrVoltageLNAvg "VoltageLNAvg"
  let errAccumulator := accumulate errAccumulator rVoltageLNAvg.2
  let rActivePowerA ← readAndDecodeFloat32 client slaveID addrActivePowerA "ActivePowerA"
  let errAccumulator := accumulate errAccumulator rActivePowerA.2
  let rActivePowerB ← readAndDecodeFloat32 client slaveID addrActivePowerB "ActivePowerB"
  let errAccumulator := accumulate errAccumulator rActivePowerB.2
  let rActivePowerC ← readAndDecodeFloat32 client slaveID addrActivePowerC "ActivePowerC"
  let errAccumulator := accumulate errAccumulator rActivePowerC.2
  let rActivePowerTotal ← readAndDecodeFloat32 client slaveID addrActivePowerTotal "ActivePowerTotal"
  let errAccumulator := accumulate errAccumulator rActivePowerTotal.2
  let rReactivePowerA ← readAndDecodeFloat32 client slaveID addrReactivePowerA "ReactivePowerA"
  let errAccumulator := accumulate errAccumulator rReactivePowerA.2
  let rReactivePowerB ← readAndDecodeFloat32 client slaveID addrReactivePowerB "ReactivePowerB"
  let errAccumulator := accumulate errAccumulator rReactivePowerB.2
  let rReactivePowerC ← readAndDecodeFloat32 client slaveID addrReactivePowerC "ReactivePowerC"
  let errAccumulator := accumulate errAccumulator rReactivePowerC.2
  let rReactivePowerTotal ← readAndDecodeFloat32 client slaveID addrReactivePowerTotal "ReactivePowerTotal"
  let errAccumulator := accumulate errAccumulator rReactivePowerTotal.2
  let rApparentPowerA ← readAndDecodeFloat32 client slaveID addrApparentPowerA "ApparentPowerA"
  let errAccumulator := accumulate errAccumulator rApparentPowerA.2
  let rApparentPowerB ← readAndDecodeFloat32 client slaveID addrApparentPowerB "ApparentPowerB"
  let errAccumulator := accumulate errAccumulator rApparentPowerB.2
  let rApparentPowerC ← readAndDecodeFloat32 client slaveID addrApparentPowerC "ApparentPowerC"
  let errAccumulator := accumulate errAccumulator rApparentPowerC.2
  let rApparentPowerTotal ← readAndDecodeFloat32 client slaveID addrApparentPowerTotal "ApparentPowerTotal"
  let errAccumulator := accumulate errAccumulator rApparentPowerTotal.2
  let rPowerFactorA ← readAndDecodeFloat32 client slaveID addrPowerFactorA "PowerFactorA"
  let errAccumulator := accumulate errAccumulator rPowerFactorA.2
  let rPowerFactorB ← readAndDecodeFloat32 client slaveID addrPowerFactorB "PowerFactorB"
  let errAccumulator := accumulate errAccumulator rPowerFactorB.2
  let rPowerFactorC ← readAndDecodeFloat32 client slaveID addrPowerFactorC "PowerFactorC"
  let errAccumulator := accumulate errAccumulator rPowerFactorC.2
  let rPowerFactorTotal ← readAndDecodeFloat32 client slaveID addrPowerFactorTotal "PowerFactorTotal"
  let errAccumulator := accumulate errAccumulator rPowerFactorTotal.2
  let rFrequency ← readAndDecodeFloat32 client slaveID addrFrequency "Frequency"
  let errAccumulator := accumulate errAccumulator rFrequency.2
  let rActiveEnergyDelivered ← readAndDecodeInt64 client slaveID addrActiveEnergyDelivered "ActiveEnergyDelivered"
  let errAccumulator := accumulate errAccumulator rActiveEnergyDelivered.2
  let rActiveEnergyReceived ← readAndDecodeInt64 client slaveID addrActiveEnergyReceived "ActiveEnergyReceived"
  let errAccumulator := accumulate errAccumulator rActiveEnergyReceived.2
  let rReactiveEnergyDelivered ← readAndDecodeInt64 client slaveID addrReactiveEnergyDelivered "ReactiveEnergyDelivered"
  let errAccumulator := accumulate errAccumulator rReactiveEnergyDelivered.2
  let rReactiveEnergyReceived ← readAndDecodeInt64 client slaveID addrReactiveEnergyReceived "ReactiveEnergyReceived"
  let errAccumulator := accumulate errAccumulator rReactiveEnergyReceived.2
  let rApparentEnergyDelivered ← readAndDecodeInt64 client slaveID addrApparentEnergyDelivered "ApparentEnergyDelivered"
  let errAccumulator := accumulate errAccumulator rApparentEnergyDelivered.2
  let rApparentEnergyReceived ← readAndDecodeInt64 client slaveID addrApparentEnergyReceived "ApparentEnergyReceived"
  let errAccumulator := accumulate errAccumulator rApparentEnergyReceived.2
  let rTHDCurrentA ← readAndDecodeFloat32 client slaveID addrTHDCurrentA "THDCurrentA"
  let errAccumulator := accumulate errAccumulator rTHDCurrentA.2
  let rTHDCurrentB ← readAndDecodeFloat32 client slaveID addrTHDCurrentB "THDCurrentB"
  let errAccumulator := accumulate errAccumulator rTHDCurrentB.2
  let rTHDCurrentC ← readAndDecodeFloat32 client slaveID addrTHDCurrentC "THDCurrentC"
  let errAccumulator := accumulate errAccumulator rTHDCurrentC.2
  let rTHDVoltageAB ← readAndDecodeFloat32 client slaveID addrTHDVoltageAB "THDVoltageAB"
  let errAccumulator := accumulate errAccumulator rTHDVoltageAB.2
  let rTHDVoltageBC ← readAndDecodeFloat32 client slaveID addrTHDVoltageBC "THDVoltageBC"
  let errAccumulator := accumulate errAccumulator rTHDVoltageBC.2
  let rTHDVoltageCA ← readAndDecodeFloat32 client slaveID addrTHDVoltageCA "THDVoltageCA"
  let errAccumulator := accumulate errAccumulator rTHDVoltageCA.2
  let rTHDVoltageAN ← readAndDecodeFloat32 client slaveID addrTHDVoltageAN "THDVoltageAN"
  let errAccumulator := accumulate errAccumulator rTHDVoltageAN.2
  let rTHDVoltageBN ← readAndDecodeFloat32 client slaveID addrTHDVoltageBN "THDVoltageBN"
  let errAccumulator := accumulate errAccumulator rTHDVoltageBN.2
  let rTHDVoltageCN ← readAndDecodeFloat32 client slaveID addrTHDVoltageCN "THDVoltageCN"
  let errAccumulator := accumulate errAccumulator rTHDVoltageCN.2
  let data : PM2120Data :=
    { CurrentA := rCurrentA.1, CurrentB := rCurrentB.1, CurrentC := rCurrentC.1,
      CurrentAvg := rCurrentAvg.1, VoltageAB := rVoltageAB.1, VoltageBC := rVoltageBC.1,
      VoltageCA := rVoltageCA.1, VoltageLLAvg := rVoltageLLAvg.1,
      VoltageAN := rVoltageAN.1, VoltageBN := rVoltageBN.1, VoltageCN := rVoltageCN.1,
      VoltageLNAvg := rVoltageLNAvg.1, ActivePowerA := rActivePowerA.1,
      ActivePowerB := rActivePowerB.1, ActivePowerC := rActivePowerC.1,
      ActivePowerTotal := rActivePowerTotal.1, ReactivePowerA := rReactivePowerA.1,
      ReactivePowerB := rReactivePowerB.1, ReactivePowerC := rReactivePowerC.1,
      ReactivePowerTotal := rReactivePowerTotal.1, ApparentPowerA := rApparentPowerA.1,
      ApparentPowerB := rApparentPowerB.1, ApparentPowerC := rApparentPowerC.1,
      ApparentPowerTotal := rApparentPowerTotal.1, PowerFactorA := rPowerFactorA.1,
      PowerFactorB := rPowerFactorB.1, PowerFactorC := rPowerFactorC.1,
      PowerFactorTotal := rPowerFactorTotal.1, Frequency := rFrequency.1,
      ActiveEnergyDelivered := rActiveEnergyDelivered.1,
      ActiveEnergyReceived := rActiveEnergyReceived.1,
      ReactiveEnergyDelivered := rReactiveEnergyDelivered.1,
      ReactiveEnergyReceived := rReactiveEnergyReceived.1,
      ApparentEnergyDelivered := rApparentEnergyDelivered.1,
      ApparentEnergyReceived := rApparentEnergyReceived.1, THDCurrentA := rTHDCurrentA.1,
      THDCurrentB := rTHDCurrentB.1, THDCurrentC := rTHDCurrentC.1,
      THDVoltageAB := rTHDVoltageAB.1, THDVoltageBC := rTHDVoltageBC.1,
      THDVoltageCA := rTHDVoltageCA.1, THDVoltageAN := rTHDVoltageAN.1,
      THDVoltageBN := rTHDVoltageBN.1, THDVoltageCN := rTHDVoltageCN.1 }
  return (data, errAccumulator)


/-! ## Outcome of one read -/

/-- What `readAndDecodeFloat32` returns, as a function of the response read. -/
def float32Outcome (fieldName : String) (r : Response) : Option float32 × Option GoError :=
  match r.err with
  | some err =>
    (none, some (.wrapError ("đọc " ++ fieldName ++ " lỗi: " ++ err.Error) err))
  | none =>
    if r.results.length ≠ 4 then
      (none, some (.errorString ("đọc " ++ fieldName ++ " lỗi: độ dài kết quả không đúng")))
    else ((bytesToFloat32 r.results).toOption, none)

/-- What `readAndDecodeInt64` returns, as a function of the response read. -/
def int64Outcome (fieldName : String) (r : Response) : Option Int × Option GoError :=
  match r.err with
  | some err =>
    (none, some (.wrapError ("đọc " ++ fieldName ++ " lỗi: " ++ err.Error) err))
  | none =>
    if r.results.length ≠ 8 then
      (none, some (.errorString ("đọc " ++ fieldName ++ " lỗi: độ dài kết quả không đúng")))
    else ((bytesToInt64 r.results).toOption, none)

/-- What `readAndDecodeUint16` returns, as a function of the response read. -/
def uint16Outcome (fieldName : String) (r : Response) : Option Nat × Option GoError :=
  match r.err with
  | some err =>
    (none, some (.wrapError ("đọc " ++ fieldName ++ " lỗi: " ++ err.Error) err))
  | none =>
    if r.results.length ≠ 2 then
      (none, some (.errorString ("đọc " ++ fieldName ++ " lỗi: độ dài kết quả không đúng")))
    else ((bytesToUint16 r.results).toOption, none)

/-! ## The table of the reads of `ReadPM2120Data` -/

/-- The fields of `PM2120Data` that `ReadPM2120Data` reads, in the order of the
reads. -/
inductive PMField where
  | CurrentA | CurrentB | CurrentC | CurrentAvg | VoltageAB | VoltageBC | VoltageCA
  | VoltageLLAvg | VoltageAN | VoltageBN | VoltageCN | VoltageLNAvg | ActivePowerA
  | ActivePowerB | ActivePowerC | ActivePowerTotal | ReactivePowerA | ReactivePowerB
  | ReactivePowerC | ReactivePowerTotal | ApparentPowerA | ApparentPowerB | ApparentPowerC
  | ApparentPowerTotal | PowerFactorA | PowerFactorB | PowerFactorC | PowerFactorTotal
  | Frequency | ActiveEnergyDelivered | ActiveEnergyReceived | ReactiveEnergyDelivered
  | ReactiveEnergyReceived | ApparentEnergyDelivered | ApparentEnergyReceived | THDCurrentA
  | THDCurrentB | THDCurrentC | THDVoltageAB | THDVoltageBC | THDVoltageCA | THDVoltageAN
  | THDVoltageBN | THDVoltageCN
  deriving DecidableEq, Repr

namespace PMField

/-- Every read field, in the order of the reads. -/
def all : List PMField :=
  [CurrentA, CurrentB, CurrentC, CurrentAvg, VoltageAB, VoltageBC, VoltageCA, VoltageLLAvg,
  VoltageAN, VoltageBN, VoltageCN, VoltageLNAvg, ActivePowerA, ActivePowerB, ActivePowerC,
  ActivePowerTotal, ReactivePowerA, ReactivePowerB, ReactivePowerC, ReactivePowerTotal,
  ApparentPowerA, ApparentPowerB, ApparentPowerC, ApparentPowerTotal, PowerFactorA,
  PowerFactorB, PowerFactorC, PowerFactorTotal, Frequency, ActiveEnergyDelivered,
  ActiveEnergyReceived, ReactiveEnergyDelivered, ReactiveEnergyReceived,
  ApparentEnergyDelivered, ApparentEnergyReceived, THDCurrentA, THDCurrentB, THDCurrentC,
  THDVoltageAB, THDVoltageBC, THDVoltageCA, THDVoltageAN, THDVoltageBN, THDVoltageCN]

/-- The field name passed to the helper by the read of the field. -/
def name : PMField → String
  | CurrentA => "CurrentA"
  | CurrentB => "CurrentB"
  | CurrentC => "CurrentC"
  | CurrentAvg => "CurrentAvg"
  | VoltageAB => "VoltageAB"
  | VoltageBC => "VoltageBC"
  | VoltageCA => "VoltageCA"
  | VoltageLLAvg => "VoltageLLAvg"
  | VoltageAN => "VoltageAN"
  | VoltageBN => "VoltageBN"
  | VoltageCN => "VoltageCN"
  | VoltageLNAvg => "VoltageLNAvg"
  | ActivePowerA => "ActivePowerA"
  | ActivePowerB => "ActivePowerB"
  | ActivePowerC => "ActivePowerC"
  | ActivePowerTotal => "ActivePowerTotal"
  | ReactivePowerA => "ReactivePowerA"
  | ReactivePowerB => "ReactivePowerB"
  | ReactivePowerC => "ReactivePowerC"
  | ReactivePowerTotal => "ReactivePowerTotal"
  | ApparentPowerA => "ApparentPowerA"
  | ApparentPowerB => "ApparentPowerB"
  | ApparentPowerC => "ApparentPowerC"
  | ApparentPowerTotal => "ApparentPowerTotal"
  | PowerFactorA => "PowerFactorA"
  | PowerFactorB => "PowerFactorB"
  | PowerFactorC => "PowerFactorC"
  | PowerFactorTotal => "PowerFactorTotal"
  | Frequency => "Frequency"
  | ActiveEnergyDelivered => "ActiveEnergyDelivered"
  | ActiveEnergyReceived => "ActiveEnergyReceived"
  | ReactiveEnergyDelivered => "ReactiveEnergyDelivered"
  | ReactiveEnergyReceived => "ReactiveEnergyReceived"
  | ApparentEnergyDelivered => "ApparentEnergyDelivered"
  | ApparentEnergyReceived => "ApparentEnergyReceived"
  | THDCurrentA => "THDCurrentA"
  | THDCurrentB => "THDCurrentB"
  | THDCurrentC => "THDCurrentC"
  | THDVoltageAB => "THDVoltageAB"
  | THDVoltageBC => "THDVoltageBC"
  | THDVoltageCA => "THDVoltageCA"
  | THDVoltageAN => "THDVoltageAN"
  | THDVoltageBN => "THDVoltageBN"
  | THDVoltageCN => "THDVoltageCN"

/-- The address constant named after the field. -/
def addr : PMField → Nat
  | CurrentA => addrCurrentA
  | CurrentB => addrCurrentB
  | CurrentC => addrCurrentC
  | CurrentAvg => addrCurrentAvg
  | VoltageAB => addrVoltageAB
  | VoltageBC => addrVoltageBC
  | VoltageCA => addrVoltageCA
  | VoltageLLAvg => addrVoltageLLAvg
  | VoltageAN => addrVoltageAN
  | VoltageBN => addrVoltageBN
  | VoltageCN => addrVoltageCN
  | VoltageLNAvg => addrVoltageLNAvg
  | ActivePowerA => addrActivePowerA
  | ActivePowerB => addrActivePowerB
  | ActivePowerC => addrActivePowerC
  | ActivePowerTotal => addrActivePowerTotal
  | ReactivePowerA => addrReactivePowerA
  | ReactivePowerB => addrReactivePowerB
  | ReactivePowerC => addrReactivePowerC
  | ReactivePowerTotal => addrReactivePowerTotal
  | ApparentPowerA => addrApparentPowerA
  | ApparentPowerB => addrApparentPowerB
  | ApparentPowerC => addrApparentPowerC
  | ApparentPowerTotal => addrApparentPowerTotal
  | PowerFactorA => addrPowerFactorA
  | PowerFactorB => addrPowerFactorB
  | PowerFactorC => addrPowerFactorC
  | PowerFactorTotal => addrPowerFactorTotal
  | Frequency => addrFrequency
  | ActiveEnergyDelivered => addrActiveEnergyDelivered
  | ActiveEnergyReceived => addrActiveEnergyReceived
  | ReactiveEnergyDelivered => addrReactiveEnergyDelivered
  | ReactiveEnergyReceived => addrReactiveEnergyReceived
  | ApparentEnergyDelivered => addrApparentEnergyDelivered
  | ApparentEnergyReceived => addrApparentEnergyReceived
  | THDCurrentA => addrTHDCurrentA
  | THDCurrentB => addrTHDCurrentB
  | THDCurrentC => addrTHDCurrentC
  | THDVoltageAB => addrTHDVoltageAB
  | THDVoltageBC => addrTHDVoltageBC
  | THDVoltageCA => addrTHDVoltageCA
  | THDVoltageAN => addrTHDVoltageAN
  | THDVoltageBN => addrTHDVoltageBN
  | THDVoltageCN => addrTHDVoltageCN

/-- The energy counters, which are the `*int64` fields of `PM2120Data`; every
other read field is a `*float32`. -/
def isInt64 : PMField → Bool
  | ActiveEnergyDelivered => true
  | ActiveEnergyReceived => true
  | ReactiveEnergyDelivered => true
  | ReactiveEnergyReceived => true
  | ApparentEnergyDelivered => true
  | ApparentEnergyReceived => true
  | _ => false

/-- The number of registers of the encoding of the field: 2 for `float32`, 4 for
`int64`. -/
def quantity (f : PMField) : Nat := if f.isInt64 then 4 else 2

end PMField

/-- A decoded number: the target of a non-nil pointer of `PM2120Data`. -/
inductive Value where
  | f32 (v : float32)
  | i64 (v : Int)
  deriving DecidableEq, Repr

namespace PMField

/-- The pointer stored in the field of the snapshot named by `f`. -/
def get (d : PM2120Data) : PMField → Option Value
  | CurrentA => d.CurrentA.map Value.f32
  | CurrentB => d.CurrentB.map Value.f32
  | CurrentC => d.CurrentC.map Value.f32
  | CurrentAvg => d.CurrentAvg.map Value.f32
  | VoltageAB => d.VoltageAB.map Value.f32
  | VoltageBC => d.VoltageBC.map Value.f32
  | VoltageCA => d.VoltageCA.map Value.f32
  | VoltageLLAvg => d.VoltageLLAvg.map Value.f32
  | VoltageAN => d.VoltageAN.map Value.f32
  | VoltageBN => d.VoltageBN.map Value.f32
  | VoltageCN => d.VoltageCN.map Value.f32
  | VoltageLNAvg => d.VoltageLNAvg.map Value.f32
  | ActivePowerA => d.ActivePowerA.map Value.f32
  | ActivePowerB => d.ActivePowerB.map Value.f32
  | ActivePowerC => d.ActivePowerC.map Value.f32
  | ActivePowerTotal => d.ActivePowerTotal.map Value.f32
  | ReactivePowerA => d.ReactivePowerA.map Value.f32
  | ReactivePowerB => d.ReactivePowerB.map Value.f32
  | ReactivePowerC => d.ReactivePowerC.map Value.f32
  | ReactivePowerTotal => d.ReactivePowerTotal.map Value.f32
  | ApparentPowerA => d.ApparentPowerA.map Value.f32
  | ApparentPowerB => d.ApparentPowerB.map Value.f32
  | ApparentPowerC => d.ApparentPowerC.map Value.f32
  | ApparentPowerTotal => d.ApparentPowerTotal.map Value.f32
  | PowerFactorA => d.PowerFactorA.map Value.f32
  | PowerFactorB => d.PowerFactorB.map Value.f32
  | PowerFactorC => d.PowerFactorC.map Value.f32
  | PowerFactorTotal => d.PowerFactorTotal.map Value.f32
  | Frequency => d.Frequency.map Value.f32
  | ActiveEnergyDelivered => d.ActiveEnergyDelivered.map Value.i64
  | ActiveEnergyReceived => d.ActiveEnergyReceived.map Value.i64
  | ReactiveEnergyDelivered => d.ReactiveEnergyDelivered.map Value.i64
  | ReactiveEnergyReceived => d.ReactiveEnergyReceived.map Value.i64
  | ApparentEnergyDelivered => d.ApparentEnergyDelivered.map Value.i64
  | ApparentEnergyReceived => d.ApparentEnergyReceived.map Value.i64
  | THDCurrentA => d.THDCurrentA.map Value.f32
  | THDCurrentB => d.THDCurrentB.map Value.f32
  | THDCurrentC => d.THDCurrentC.map Value.f32
  | THDVoltageAB => d.THDVoltageAB.map Value.f32
  | THDVoltageBC => d.THDVoltageBC.map Value.f32
  | THDVoltageCA => d.THDVoltageCA.map Value.f32
  | THDVoltageAN => d.THDVoltageAN.map Value.f32
  | THDVoltageBN => d.THDVoltageBN.map Value.f32
  | THDVoltageCN => d.THDVoltageCN.map Value.f32

/-- The type decoder of the encoding of the field, without scale factor. -/
def decode (f : PMField) (b : List Byte) : Except Panic Value :=
  if f.isInt64 then (bytesToInt64 b).map Value.i64 else (bytesToFloat32 b).map Value.f32

/-- The fields read before `f`. -/
def before (f : PMField) : List PMField := all.takeWhile (fun g => g ≠ f)

end PMField

/-- A read succeeded for a field of `quantity` registers: the transport
returned no error and exactly `2 * quantity` bytes. -/
def Response.okFor (r : Response) (quantity : Nat) : Prop :=
  r.err = none ∧ r.results.length = 2 * quantity

instance (r : Response) (quantity : Nat) : Decidable (r.okFor quantity) := by
  unfold Response.okFor; infer_instance

/-- The state of the transport after the reads of the fields `fs`, in order,
starting from state `s`. -/
def stateAfter {σ : Type} (client : RTUClient σ) (slaveID : Nat) (s : σ) : List PMField → σ
  | [] => s
  | f :: fs => stateAfter client slaveID (client.transport slaveID f.addr f.quantity s).2 fs

/-- The response of the transport to the read of field `f` during a run of
`ReadPM2120Data` started in state `s`: the reads of the fields before `f` have
been made. -/
def responseTo {σ : Type} (client : RTUClient σ) (slaveID : Nat) (s : σ) (f : PMField) :
    Response :=
  (client.transport slaveID f.addr f.quantity (stateAfter client slaveID s f.before)).1

/-- The error that the read of field `f` hands to the accumulator, as a function
of the response: `nil` when the read succeeded with the right length. -/
def PMField.error (f : PMField) (r : Response) : Option GoError :=
  if f.isInt64 then (int64Outcome f.name r).2 else (float32Outcome f.name r).2

/-! ## `float64` arithmetic used by `inverter.go` -/

/-- Go `float64`, finite values only, represented by the rational number that
the value denotes. -/
structure float64 where
  val : ℚ
  deriving DecidableEq, Repr

/-- The floor of the binary logarithm of `n`, by halving (`fuel` bounds the
number of halvings). -/
def floorLog2Aux : Nat → Nat → Nat
  | 0, _ => 0
  | fuel + 1, n => if n < 2 then 0 else floorLog2Aux fuel (n / 2) + 1

/-- The floor of the binary logarithm of `n ≥ 1`. -/
def floorLog2 (n : Nat) : Nat := floorLog2Aux n n

/-- The integer nearest to `n / d`, ties to the even integer. -/
def roundNearestEven (n d : Nat) : Nat :=
  let q := n / d
  let r := n % d
  if 2 * r < d then q else if d < 2 * r then q + 1 else if q % 2 = 0 then q else q + 1

/-- IEEE-754 rounding to nearest, ties to even, of the positive rational `n / d`
to binary64 (53 significant bits), for a quotient in the range of the normal
numbers. -/
def roundBinary64 (n d : Nat) : ℚ :=
  if n = 0 then 0 else
  let k : Int := (floorLog2 n : Int) - (floorLog2 d : Int)
  let e : Int :=
    if (0 ≤ k ∧ 2 ^ k.toNat * d ≤ n) ∨ (k < 0 ∧ d ≤ n * 2 ^ (-k).toNat) then k else k - 1
  let sh : Int := 52 - e
  let m : Nat :=
    if 0 ≤ sh then roundNearestEven (n * 2 ^ sh.toNat) d
    else roundNearestEven n (d * 2 ^ (-sh).toNat)
  (m : ℚ) * (2 : ℚ) ^ (-sh)

/-- The conversion `float64(v)` of a `uint16`, which is exact. -/
def float64.ofUint16 (v : Nat) : float64 := ⟨(v : ℚ)⟩

/-- The quotient `x / y` of two `float64`, correctly rounded, for `x ≥ 0` and
`y > 0` (the only use in `ReadData`). -/
def float64.div (x y : float64) : float64 :=
  let q := x.val / y.val
  ⟨roundBinary64 q.num.natAbs q.den⟩

/-! ## The Modbus client (`client.go`) and the basic snapshot (`inverter.go`) -/

/-- The interface `modbus.Client` of the transport library, restricted to the
methods that `client.go` calls; each call takes the state of the transport and
returns the pair `(results, err)` with the next state. -/
structure ModbusClient (σ : Type) where
  ReadHoldingRegisters : (address quantity : Nat) → σ → Response × σ
  WriteSingleRegister : (address value : Nat) → σ → Response × σ
  WriteMultipleRegisters : (address quantity : Nat) → (value : List Byte) → σ → Response × σ

/-- Type `Client`: the field `handler` only serves `NewClient` and `Close`. -/
structure Client (σ : Type) where
  client : ModbusClient σ

/-- Method `Client.ReadHoldingRegisters`: the call is passed to the transport. -/
def Client.ReadHoldingRegisters {σ : Type} (c : Client σ) (address quantity : Nat) :
    Exec σ Response :=
  fun s => .ok (c.client.ReadHoldingRegisters address quantity s)

/-- Type `InverterData`: the fields are plain numbers, not pointers. -/
structure InverterData where
  Timestamp : Nat
  ConnectionStatus : Nat
  DeviceStatus : Nat
  ErrorCode : Nat
  ActivePower : float64
  ReactivePower : float64
  PowerFactor : float64
  Frequency : float64
  Voltage : float64
  Current : float64
  Temperature : float64
  DailyEnergy : float64
  TotalEnergy : float64
  Efficiency : float64
  deriving DecidableEq, Repr

/-- Type `InverterService`: a service holds its client. -/
structure InverterService (σ : Type) where
  client : Client σ

/-- The index expression `data[i]`: panics when `i` is out of range. -/
def index (data : List Byte) (i : Nat) : Except Panic Byte :=
  match data.get? i with
  | some b => .ok b
  | none => .error (.indexOutOfRange i data.length)

/-- The expression `uint16(data[i])<<8 | uint16(data[i+1])`. -/
def word (data : List Byte) (i : Nat) : Except Panic Nat := do
  let hi ← index data i
  let lo ← index data (i + 1)
  return (hi.val <<< 8) % 2 ^ 16 ||| lo.val

/-- Method `InverterService.ReadData`; `now` is the value of `time.Now()`. -/
def InverterService.ReadData {σ : Type} (s : InverterService σ) (now : Nat) :
    Exec σ (Option InverterData × Option GoError) := do
  let r ← s.client.ReadHoldingRegisters 0 13
  match r.err with
  | some err => return (none, some err)
  | none =>
    let data := r.results
    let ConnectionStatus ← liftM (word data 0)
    let DeviceStatus ← liftM (word data 2)
    let ErrorCode ← liftM (word data 4)
    let ActivePower := (float64.ofUint16 (← liftM (word data 6))).div ⟨100⟩
    let ReactivePower := (float64.ofUint16 (← liftM (word data 8))).div ⟨100⟩
    let PowerFactor := (float64.ofUint16 (← liftM (word data 10))).div ⟨100⟩
    let Frequency := (float64.ofUint16 (← liftM (word data 12))).div ⟨10⟩
    let Voltage := (float64.ofUint16 (← liftM (word data 14))).div ⟨10⟩
    let Current := (float64.ofUint16 (← liftM (word data 16))).div ⟨10⟩
    let Temperature := (float64.ofUint16 (← liftM (word data 18))).div ⟨10⟩
    let DailyEnergy := (float64.ofUint16 (← liftM (word data 20))).div ⟨10⟩
    let TotalEnergy := (float64.ofUint16 (← liftM (word data 22))).div ⟨10⟩
    let Efficiency := (float64.ofUint16 (← liftM (word data 24))).div ⟨100⟩
    let inverterData : InverterData :=
      { Timestamp := now, ConnectionStatus := ConnectionStatus, DeviceStatus := DeviceStatus,
        ErrorCode := ErrorCode, ActivePower := ActivePower, ReactivePower := ReactivePower,
        PowerFactor := PowerFactor, Frequency := Frequency, Voltage := Voltage,
        Current := Current, Temperature := Temperature, DailyEnergy := DailyEnergy,
        TotalEnergy := TotalEnergy, Efficiency := Efficiency }
    return (some inverterData, none)

/-- A basic-snapshot service over a transport without state, given by the
response to a read of (address, quantity); writes are not used. -/
def InverterService.ofFun (t : Nat → Nat → Response) : InverterService Unit :=
  ⟨⟨⟨fun address quantity s => (t address quantity, s),
     fun _ _ s => (⟨[], none⟩, s), fun _ _ _ s => (⟨[], none⟩, s)⟩⟩⟩

/-! ## Sample transports -/

/-- A transport that answers every read with zero bytes of the requested
length. -/
def zeroTransport : Nat → Nat → Nat → Response :=
  fun _ _ quantity => ⟨List.replicate (2 * quantity) 0, none⟩

/-- The sample register block of `cmd/simulator/main.go`. -/
def simulatorRegisters : List Byte :=
  [0x00, 0x01, 0x00, 0x01, 0x00, 0x00, 0x00, 0x05, 0x00, 0x02, 0x00, 0x96, 0x00, 0x32,
   0x00, 0xF0, 0x00, 0x14, 0x00, 0x28, 0x00, 0x32, 0x00, 0xFA, 0x00, 0x64]

/-- The reason that the error of a failed read carries after the field name:
the text of the transport error, or the fixed text of a length mismatch. -/
def failureCause (r : Response) : String :=
  match r.err with
  | some e => e.Error
  | none => "độ dài kết quả không đúng"

/-- The value zero in the encoding of the field. -/
def PMField.zero (f : PMField) : Value :=
  if f.isInt64 then .i64 0 else .f32 ⟨0⟩

/-- A transport that fails every read with the error `timeout`. -/
def timeoutTransport : Nat → Nat → Nat → Response :=
  fun _ _ _ => ⟨[], some (.errorString "timeout")⟩

/-- A transport that answers zero bytes of the requested length, except that the
read at `addrFrequency` fails with the error `timeout`. -/
def frequencyTimeout : Nat → Nat → Nat → Response :=
  fun slaveID address quantity =>
    if address = addrFrequency then ⟨[], some (.errorString "timeout")⟩
    else zeroTransport slaveID address quantity

/-- A transport that answers every read, without error, with the three bytes
`1 2 3`; a counter of the reads made is its state. -/
def threeBytes : RTUClient Nat :=
  ⟨fun _ _ _ n => (⟨[1, 2, 3], none⟩, n + 1)⟩

/-- A basic-snapshot transport whose read of the register block (address 0,
quantity 13) fails with the error `timeout`; every other read would succeed. -/
def blockReadTimeout : Nat → Nat → Response :=
  fun address quantity =>
    if address = 0 ∧ quantity = 13 then ⟨[], some (.errorString "timeout")⟩
    else ⟨List.replicate (2 * quantity) 0, none⟩

/-- A basic-snapshot transport that answers, without error, the four bytes
`0x00 0x01 0x00 0x02` (two registers instead of thirteen). -/
def twoRegisters : Nat → Nat → Response :=
  fun _ _ => ⟨[0x00, 0x01, 0x00, 0x02], none⟩

/-! ## Observation of the requests -/

/-- A transport that records, in front of the state of `client`, the requests
(slave id, address, quantity) that it receives, in the order received, and
otherwise answers as `client` does. -/
def RTUClient.logged {σ : Type} (client : RTUClient σ) :
    RTUClient (List (Nat × Nat × Nat) × σ) :=
  ⟨fun slaveID address quantity p =>
    ((client.transport slaveID address quantity p.2).1,
     (p.1 ++ [(slaveID, address, quantity)],
      (client.transport slaveID address quantity p.2).2))⟩

/-- The requests (address constant, quantity) written in `ReadPM2120Data`, in
the order of the source: quantity 2 in the calls of `readAndDecodeFloat32`,
quantity 4 in the calls of `readAndDecodeInt64`. -/
def pm2120Requests : List (Nat × Nat) :=
  [(addrCurrentA, 2), (addrCurrentB, 2), (addrCurrentC, 2), (addrCurrentAvg, 2),
  (addrVoltageAB, 2), (addrVoltageBC, 2), (addrVoltageCA, 2), (addrVoltageLLAvg, 2),
  (addrVoltageAN, 2), (addrVoltageBN, 2), (addrVoltageCN, 2), (addrVoltageLNAvg, 2),
  (addrActivePowerA, 2), (addrActivePowerB, 2), (addrActivePowerC, 2),
  (addrActivePowerTotal, 2), (addrReactivePowerA, 2), (addrReactivePowerB, 2),
  (addrReactivePowerC, 2), (addrReactivePowerTotal, 2), (addrApparentPowerA, 2),
  (addrApparentPowerB, 2), (addrApparentPowerC, 2), (addrApparentPowerTotal, 2),
  (addrPowerFactorA, 2), (addrPowerFactorB, 2), (addrPowerFactorC, 2),
  (addrPowerFactorTotal, 2), (addrFrequency, 2), (addrActiveEnergyDelivered, 4),
  (addrActiveEnergyReceived, 4), (addrReactiveEnergyDelivered, 4),
  (addrReactiveEnergyReceived, 4), (addrApparentEnergyDelivered, 4),
  (addrApparentEnergyReceived, 4), (addrTHDCurrentA, 2), (addrTHDCurrentB, 2),
  (addrTHDCurrentC, 2), (addrTHDVoltageAB, 2), (addrTHDVoltageBC, 2), (addrTHDVoltageCA, 2),
  (addrTHDVoltageAN, 2), (addrTHDVoltageBN, 2), (addrTHDVoltageCN, 2)]

/-- The register map of `pm2120.go`: every address constant of the `const`
block, in the order of the source, with the number of registers that the comment
of its group states (`FLOAT32, 2 registers`, `INT64, 4 registers`). -/
def registerTable : List (Nat × Nat) :=
  [(addrCurrentA, 2), (addrCurrentB, 2), (addrCurrentC, 2), (addrCurrentN, 2),
  (addrCurrentAvg, 2), (addrVoltageAB, 2), (addrVoltageBC, 2), (addrVoltageCA, 2),
  (addrVoltageLLAvg, 2), (addrVoltageAN, 2), (addrVoltageBN, 2), (addrVoltageCN, 2),
  (addrVoltageLNAvg, 2), (addrActivePowerA, 2), (addrActivePowerB, 2), (addrActivePowerC, 2),
  (addrActivePowerTotal, 2), (addrReactivePowerA, 2), (addrReactivePowerB, 2),
  (addrReactivePowerC, 2), (addrReactivePowerTotal, 2), (addrApparentPowerA, 2),
  (addrApparentPowerB, 2), (addrApparentPowerC, 2), (addrApparentPowerTotal, 2),
  (addrPowerFactorA, 2), (addrPowerFactorB, 2), (addrPowerFactorC, 2),
  (addrPowerFactorTotal, 2), (addrFrequency, 2), (addrActiveEnergyDelivered, 4),
  (addrActiveEnergyReceived, 4), (addrReactiveEnergyDelivered, 4),
  (addrReactiveEnergyReceived, 4), (addrApparentEnergyDelivered, 4),
  (addrApparentEnergyReceived, 4), (addrTHDCurrentA, 2), (addrTHDCurrentB, 2),
  (addrTHDCurrentC, 2), (addrTHDVoltageAB, 2), (addrTHDVoltageBC, 2), (addrTHDVoltageCA, 2),
  (addrTHDVoltageAN, 2), (addrTHDVoltageBN, 2), (addrTHDVoltageCN, 2)]

/-- The registers `[addr, addr + count - 1]` of two entries of the register map
do not overlap. -/
def disjointRegisters (a b : Nat × Nat) : Prop :=
  a.1 + a.2 ≤ b.1 ∨ b.1 + b.2 ≤ a.1

instance (a b : Nat × Nat) : Decidable (disjointRegisters a b) := by
  unfold disjointRegisters; infer_instance

/-! ## Further sample transports -/

/-- A transport whose reads of `CurrentA` and `CurrentB` fail, the first with the
error `eA` and the second with the error `timeout`; every other read answers
zero bytes of the requested length. -/
def twoFailures (eA : GoError) : Nat → Nat → Nat → Response :=
  fun slaveID address quantity =>
    if address = addrCurrentA then ⟨[], some eA⟩
    else if address = addrCurrentB then ⟨[], some (.errorString "timeout")⟩
    else zeroTransport slaveID address quantity

/-- A transport whose read of `THDCurrentA` alone fails, with the error
`timeout`; every other read answers zero bytes of the requested length. -/
def thdCurrentATimeout : Nat → Nat → Nat → Response :=
  fun slaveID address quantity =>
    if address = addrTHDCurrentA then ⟨[], some (.errorString "timeout")⟩
    else zeroTransport slaveID address quantity

/-! ## Register writes (`client.go`) -/

/-- The call `binary.BigEndian.PutUint16(b[off:], v)` as the new content of `b`:
the bytes `byte(v >> 8)` and `byte(v)` are written at `off` and `off + 1`; the
call panics when fewer than two bytes of `b` start at `off`. -/
def PutUint16At (b : List Byte) (off v : Nat) : Except Panic (List Byte) :=
  if off + 1 < b.length then
    .ok ((b.set off (BigEndian.byte (v >>> 8))).set (off + 1) (BigEndian.byte v))
  else .error (.indexOutOfRange (off + 1) b.length)

/-- The loop `for i, v := range values { binary.BigEndian.PutUint16(data[i*2:], v) }`
from index `i` on. -/
def fillRegisters : List Nat → Nat → List Byte → Except Panic (List Byte)
  | [], _, data => .ok data
  | v :: vs, i, data => do
    let data ← PutUint16At data (i * 2) v
    fillRegisters vs (i + 1) data

/-- Method `Client.WriteMultipleRegisters`: the values are `uint16`, the quantity
handed to the transport is `uint16(len(values))`, the returned value is the
error of the transport. -/
def Client.WriteMultipleRegisters {σ : Type} (c : Client σ) (address : Nat)
    (values : List Nat) : Exec σ (Option GoError) := do
  let data ← liftM (fillRegisters values 0 (List.replicate (values.length * 2) 0))
  let r ← (fun s => Except.ok
    (c.client.WriteMultipleRegisters address (values.length % 2 ^ 16) data s) :
      Exec σ Response)
  return r.err

/-- A transport of a `Client` that keeps, as its state, the quantity and the
payload of the last multiple-register write. -/
def recordingClient : Client (Option (Nat × List Byte)) :=
  ⟨⟨fun _ _ s => (⟨[], none⟩, s), fun _ _ s => (⟨[], none⟩, s),
    fun _ quantity value _ => (⟨[], none⟩, some (quantity, value))⟩⟩

/-! ## Parts of the binary64 rounding -/

/-- The significand and the shift of `roundBinary64 n d` for `n ≠ 0`: the result
is `m * 2 ^ (-sh)`. -/
def binary64Parts (n d : Nat) : Nat × Int :=
  let k : Int := (floorLog2 n : Int) - (floorLog2 d : Int)
  let e : Int :=
    if (0 ≤ k ∧ 2 ^ k.toNat * d ≤ n) ∨ (k < 0 ∧ d ≤ n * 2 ^ (-k).toNat) then k else k - 1
  let sh : Int := 52 - e
  let m : Nat :=
    if 0 ≤ sh then roundNearestEven (n * 2 ^ sh.toNat) d
    else roundNearestEven n (d * 2 ^ (-sh).toNat)
  (m, sh)

/-! ## Shape of the accumulated error -/

/-- The text accumulated from the errors `es`, in order: the literal `<nil>`
followed, for each error, by `; ` and the text of the error. -/
def accumulatedText (es : List GoError) : String :=
  es.foldl (fun text e => text ++ "; " ++ e.Error) "<nil>"

/-- The errors of the failed reads of one run of `ReadPM2120Data` started in
state `s`, in the order of the reads. -/
def failedErrors {σ : Type} (client : RTUClient σ) (slaveID : Nat) (s : σ) : List GoError :=
  PMField.all.filterMap fun f => f.error (responseTo client slaveID s f)

/-- A register block whose raw values carry the scale of `ReadData`: it starts
`0x00 0x01 0x00 0x02`, and its measured registers hold 500, 200, 95, 500, 2400,
200, 400, 500, 2500 and 10000. -/
def scaledRegisters : List Byte :=
  [0x00, 0x01, 0x00, 0x02, 0x00, 0x00, 0x01, 0xF4, 0x00, 0xC8, 0x00, 0x5F, 0x01, 0xF4,
   0x09, 0x60, 0x00, 0xC8, 0x01, 0x90, 0x01, 0xF4, 0x09, 0xC4, 0x27, 0x10]

/-! ## Execution lemmas -/

theorem Uint32_of_length {b : List Byte} (h : b.length = 4) :
    ∃ v, BigEndian.Uint32 b = .ok v := by
  match b, h with
  | [_, _, _, _], _ => exact ⟨_, rfl⟩

theorem Uint64_of_length {b : List Byte} (h : b.length = 8) :
    ∃ v, BigEndian.Uint64 b = .ok v := by
  match b, h with
  | [_, _, _, _, _, _, _, _], _ => exact ⟨_, rfl⟩

theorem bytesToFloat32_of_length {b : List Byte} (h : b.length = 4) :
    ∃ v, bytesToFloat32 b = .ok v := by
  obtain ⟨v, hv⟩ := Uint32_of_length h
  exact ⟨Float32frombits v, by simp [bytesToFloat32, hv]⟩

theorem bytesToInt64_of_length {b : List Byte} (h : b.length = 8) :
    ∃ v, bytesToInt64 b = .ok v := by
  obtain ⟨v, hv⟩ := Uint64_of_length h
  exact ⟨int64OfUint64 v, by simp [bytesToInt64, hv]⟩

theorem ReadHoldingRegisters_run {σ : Type} (client : RTUClient σ)
    (slaveID addr quantity : Nat) (s : σ) :
    (client.ReadHoldingRegisters slaveID addr quantity).run s =
      .ok (client.transport slaveID addr quantity s) := rfl

theorem readAndDecodeFloat32_run {σ : Type} (client : RTUClient σ) (slaveID addr : Nat)
    (fieldName : String) (s : σ) :
    (readAndDecodeFloat32 client slaveID addr fieldName).run s =
      .ok (float32Outcome fieldName (client.transport slaveID addr 2 s).1,
           (client.transport slaveID addr 2 s).2) := by
  rw [readAndDecodeFloat32, StateT.run_bind, ReadHoldingRegisters_run, float32Outcome]
  generalize client.transport slaveID addr 2 s = p
  obtain ⟨⟨results, err⟩, s1⟩ := p
  cases err with
  | some e => rfl
  | none =>
    by_cases h : results.length = 4
    · obtain ⟨v, hv⟩ := bytesToFloat32_of_length h
      simp [h, hv, liftM, monadLift, MonadLift.monadLift, StateT.lift, bind, StateT.bind,
        Except.bind, pure, StateT.pure, Except.pure, Except.toOption]
      rfl
    · simp [h, pure, StateT.pure, Except.pure, bind, Except.bind]
      rfl

theorem readAndDecodeInt64_run {σ : Type} (client : RTUClient σ) (slaveID addr : Nat)
    (fieldName : String) (s : σ) :
    (readAndDecodeInt64 client slaveID addr fieldName).run s =
      .ok (int64Outcome fieldName (client.transport slaveID addr 4 s).1,
           (client.transport slaveID addr 4 s).2) := by
  rw [readAndDecodeInt64, StateT.run_bind, ReadHoldingRegisters_run, int64Outcome]
  generalize client.transport slaveID addr 4 s = p
  obtain ⟨⟨results, err⟩, s1⟩ := p
  cases err with
  | some e => rfl
  | none =>
    by_cases h : results.length = 8
    · obtain ⟨v, hv⟩ := bytesToInt64_of_length h
      simp [h, hv, liftM, monadLift, MonadLift.monadLift, StateT.lift, bind, StateT.bind,
        Except.bind, pure, StateT.pure, Except.pure, Except.toOption]
      rfl
    · simp [h, pure, StateT.pure, Except.pure, bind, Except.bind]
      rfl

theorem ok_bind {ε α β : Type} (a : α) (f : α → Except ε β) :
    (Except.ok a >>= f) = f a := rfl

theorem float32Outcome_fst (fieldName : String) (r : Response) :
    (float32Outcome fieldName r).1 =
      if r.okFor 2 then (bytesToFloat32 r.results).toOption else none := by
  obtain ⟨results, err⟩ := r
  cases err with
  | some e => simp [float32Outcome, Response.okFor]
  | none =>
    by_cases h : results.length = 4 <;> simp [float32Outcome, Response.okFor, h]

theorem int64Outcome_fst (fieldName : String) (r : Response) :
    (int64Outcome fieldName r).1 =
      if r.okFor 4 then (bytesToInt64 r.results).toOption else none := by
  obtain ⟨results, err⟩ := r
  cases err with
  | some e => simp [int64Outcome, Response.okFor]
  | none =>
    by_cases h : results.length = 8 <;> simp [int64Outcome, Response.okFor, h]

theorem toOption_map {ε α β : Type} (g : α → β) (x : Except ε α) :
    (x.map g).toOption = x.toOption.map g := by
  cases x <;> rfl

theorem outcome_f32 (f : PMField) (hf : f.isInt64 = false) (r : Response) :
    (float32Outcome f.name r).1.map Value.f32 =
      if r.okFor f.quantity then (f.decode r.results).toOption else none := by
  have hq : f.quantity = 2 := by simp [PMField.quantity, hf]
  have hd : f.decode r.results = (bytesToFloat32 r.results).map Value.f32 := by
    simp [PMField.decode, hf]
  rw [float32Outcome_fst, hq, hd, toOption_map]
  split <;> rfl

theorem outcome_i64 (f : PMField) (hf : f.isInt64 = true) (r : Response) :
    (int64Outcome f.name r).1.map Value.i64 =
      if r.okFor f.quantity then (f.decode r.results).toOption else none := by
  have hq : f.quantity = 4 := by simp [PMField.quantity, hf]
  have hd : f.decode r.results = (bytesToInt64 r.results).map Value.i64 := by
    simp [PMField.decode, hf]
  rw [int64Outcome_fst, hq, hd, toOption_map]
  split <;> rfl

theorem ReadPM2120Data_run {σ : Type} (client : RTUClient σ) (slaveID : Nat) (s : σ) :
    ∃ data : PM2120Data,
      (ReadPM2120Data client slaveID).run s =
        .ok ((data, (PMField.all.map fun f => f.error (responseTo client slaveID s f)).foldl
                accumulate none), stateAfter client slaveID s PMField.all) ∧
      data.CurrentN = none ∧
      ∀ f : PMField, f.get data =
        if (responseTo client slaveID s f).okFor f.quantity
        then (f.decode (responseTo client slaveID s f).results).toOption else none := by
  simp only [ReadPM2120Data, StateT.run_bind, readAndDecodeFloat32_run, readAndDecodeInt64_run,
    ok_bind, StateT.run_pure]
  refine ⟨_, rfl, rfl, ?_⟩
  intro f
  cases f with
  | CurrentA => exact outcome_f32 .CurrentA rfl _
  | CurrentB => exact outcome_f32 .CurrentB rfl _
  | CurrentC => exact outcome_f32 .CurrentC rfl _
  | CurrentAvg => exact outcome_f32 .CurrentAvg rfl _
  | VoltageAB => exact outcome_f32 .VoltageAB rfl _
  | VoltageBC => exact outcome_f32 .VoltageBC rfl _
  | VoltageCA => exact outcome_f32 .VoltageCA rfl _
  | VoltageLLAvg => exact outcome_f32 .VoltageLLAvg rfl _
  | VoltageAN => exact outcome_f32 .VoltageAN rfl _
  | VoltageBN => exact outcome_f32 .VoltageBN rfl _
  | VoltageCN => exact outcome_f32 .VoltageCN rfl _
  | VoltageLNAvg => exact outcome_f32 .VoltageLNAvg rfl _
  | ActivePowerA => exact outcome_f32 .ActivePowerA rfl _
  | ActivePowerB => exact outcome_f32 .ActivePowerB rfl _
  | ActivePowerC => exact outcome_f32 .ActivePowerC rfl _
  | ActivePowerTotal => exact outcome_f32 .ActivePowerTotal rfl _
  | ReactivePowerA => exact outcome_f32 .ReactivePowerA rfl _
  | ReactivePowerB => exact outcome_f32 .ReactivePowerB rfl _
  | ReactivePowerC => exact outcome_f32 .ReactivePowerC rfl _
  | ReactivePowerTotal => exact outcome_f32 .ReactivePowerTotal rfl _
  | ApparentPowerA => exact outcome_f32 .ApparentPowerA rfl _
  | ApparentPowerB => exact outcome_f32 .ApparentPowerB rfl _
  | ApparentPowerC => exact outcome_f32 .ApparentPowerC rfl _
  | ApparentPowerTotal => exact outcome_f32 .ApparentPowerTotal rfl _
  | PowerFactorA => exact outcome_f32 .PowerFactorA rfl _
  | PowerFactorB => exact outcome_f32 .PowerFactorB rfl _
  | PowerFactorC => exact outcome_f32 .PowerFactorC rfl _
  | PowerFactorTotal => exact outcome_f32 .PowerFactorTotal rfl _
  | Frequency => exact outcome_f32 .Frequency rfl _
  | ActiveEnergyDelivered => exact outcome_i64 .ActiveEnergyDelivered rfl _
  | ActiveEnergyReceived => exact outcome_i64 .ActiveEnergyReceived rfl _
  | ReactiveEnergyDelivered => exact outcome_i64 .ReactiveEnergyDelivered rfl _
  | ReactiveEnergyReceived => exact outcome_i64 .ReactiveEnergyReceived rfl _
  | ApparentEnergyDelivered => exact outcome_i64 .ApparentEnergyDelivered rfl _
  | ApparentEnergyReceived => exact outcome_i64 .ApparentEnergyReceived rfl _
  | THDCurrentA => exact outcome_f32 .THDCurrentA rfl _
  | THDCurrentB => exact outcome_f32 .THDCurrentB rfl _
  | THDCurrentC => exact outcome_f32 .THDCurrentC rfl _
  | THDVoltageAB => exact outcome_f32 .THDVoltageAB rfl _
  | THDVoltageBC => exact outcome_f32 .THDVoltageBC rfl _
  | THDVoltageCA => exact outcome_f32 .THDVoltageCA rfl _
  | THDVoltageAN => exact outcome_f32 .THDVoltageAN rfl _
  | THDVoltageBN => exact outcome_f32 .THDVoltageBN rfl _
  | THDVoltageCN => exact outcome_f32 .THDVoltageCN rfl _

theorem readAndDecodeUint16_run {σ : Type} (client : RTUClient σ) (slaveID addr : Nat)
    (fieldName : String) (s : σ) :
    (readAndDecodeUint16 client slaveID addr fieldName).run s =
      .ok (uint16Outcome fieldName (client.transport slaveID addr 1 s).1,
           (client.transport slaveID addr 1 s).2) := by
  rw [readAndDecodeUint16, StateT.run_bind, ReadHoldingRegisters_run, uint16Outcome]
  generalize client.transport slaveID addr 1 s = p
  obtain ⟨⟨results, err⟩, s1⟩ := p
  cases err with
  | some e => rfl
  | none =>
    by_cases h : results.length = 2
    · have hv : ∃ v, bytesToUint16 results = .ok v := by
        match results, h with
        | [_, _], _ => exact ⟨_, rfl⟩
      obtain ⟨v, hv⟩ := hv
      simp [h, hv, liftM, monadLift, MonadLift.monadLift, StateT.lift, bind, StateT.bind,
        Except.bind, pure, StateT.pure, Except.pure, Except.toOption]
      rfl
    · simp [h, pure, StateT.pure, Except.pure, bind, Except.bind]
      rfl

theorem responseTo_ofFun (t : Nat → Nat → Nat → Response) (slaveID : Nat) (s : Unit)
    (f : PMField) :
    responseTo (RTUClient.ofFun t) slaveID s f = t slaveID f.addr f.quantity := rfl

theorem decode_ok (f : PMField) {b : List Byte} (h : b.length = 2 * f.quantity) :
    ∃ v, f.decode b = .ok v := by
  unfold PMField.decode
  unfold PMField.quantity at h
  cases hf : f.isInt64
  · rw [hf] at h
    obtain ⟨v, hv⟩ := bytesToFloat32_of_length (b := b) (by simpa using h)
    exact ⟨.f32 v, by simp [hv, Except.map]⟩
  · rw [hf] at h
    obtain ⟨v, hv⟩ := bytesToInt64_of_length (b := b) (by simpa using h)
    exact ⟨.i64 v, by simp [hv, Except.map]⟩

theorem error_eq_none_iff (f : PMField) (r : Response) :
    f.error r = none ↔ r.okFor f.quantity := by
  obtain ⟨results, err⟩ := r
  unfold PMField.error PMField.quantity Response.okFor
  cases hf : f.isInt64 <;> cases err <;>
    simp [float32Outcome, int64Outcome] <;> split <;> simp_all

theorem error_of_not_ok (f : PMField) (r : Response) (h : ¬ r.okFor f.quantity) :
    ∃ e, f.error r = some e ∧ e.Error = "đọc " ++ f.name ++ " lỗi: " ++ failureCause r := by
  obtain ⟨results, err⟩ := r
  unfold PMField.quantity Response.okFor at h
  unfold PMField.error failureCause
  have hs : ∀ a : String, a ++ " lỗi: độ dài kết quả không đúng" =
      a ++ " lỗi: " ++ "độ dài kết quả không đúng" := by
    intro a
    rw [String.append_assoc]
    rfl
  cases hf : f.isInt64 <;> cases err <;>
    simp_all [float32Outcome, int64Outcome, GoError.Error]

theorem accumulate_eq_none (acc e : Option GoError) :
    accumulate acc e = none ↔ acc = none ∧ e = none := by
  cases e <;> simp [accumulate]

theorem foldl_accumulate_eq_none (es : List (Option GoError)) (acc : Option GoError) :
    es.foldl accumulate acc = none ↔ acc = none ∧ ∀ e ∈ es, e = none := by
  induction es generalizing acc with
  | nil => simp
  | cons e es ih =>
    rw [List.foldl_cons, ih, accumulate_eq_none]
    simp only [List.mem_cons, forall_eq_or_imp]
    tauto

theorem foldl_accumulate_single (g : PMField → Option GoError) (x : PMField)
    (fs : List PMField) (hnd : fs.Nodup) (acc : Option GoError)
    (h : ∀ f ∈ fs, f ≠ x → g f = none) :
    (fs.map g).foldl accumulate acc = if x ∈ fs then accumulate acc (g x) else acc := by
  induction fs generalizing acc with
  | nil => simp
  | cons f fs ih =>
    rw [List.nodup_cons] at hnd
    rw [List.map_cons, List.foldl_cons,
      ih hnd.2 _ (fun f' hf' hne => h f' (List.mem_cons_of_mem _ hf') hne)]
    by_cases hfx : f = x
    · subst hfx
      simp [hnd.1]
    · have hg : g f = none := h f (List.mem_cons_self _ _) hfx
      have hx : x ∈ f :: fs ↔ x ∈ fs := by
        simp [List.mem_cons, Ne.symm hfx]
      simp only [hg, accumulate, hx]

theorem foldl_accumulate_filter (g : PMField → Option GoError) (p : PMField → Bool)
    (hp : ∀ f, p f = true ↔ g f ≠ none) (fs : List PMField) (acc : Option GoError) :
    (fs.map g).foldl accumulate acc = ((fs.filter p).map g).foldl accumulate acc := by
  induction fs generalizing acc with
  | nil => rfl
  | cons f fs ih =>
    by_cases hf : p f = true
    · rw [List.filter_cons_of_pos hf, List.map_cons, List.map_cons, List.foldl_cons,
        List.foldl_cons, ih]
    · have hg : g f = none := by
        by_contra hne
        exact hf ((hp f).2 hne)
      rw [List.filter_cons_of_neg hf, List.map_cons, List.foldl_cons, hg, ih]
      rfl

theorem PMField.all_nodup : PMField.all.Nodup := by decide

theorem PMField.mem_all (f : PMField) : f ∈ PMField.all := by
  cases f <;> decide

theorem bytesToUint16_of_length {b : List Byte} (h : b.length = 2) :
    ∃ v, bytesToUint16 b = .ok v := by
  match b, h with
  | [_, _], _ => exact ⟨_, rfl⟩

theorem float32Outcome_cases (fieldName : String) (r : Response) :
    (r.okFor 2 ∧ ∃ v, bytesToFloat32 r.results = .ok v ∧
        float32Outcome fieldName r = (some v, none)) ∨
    (¬ r.okFor 2 ∧ float32Outcome fieldName r =
        (none, some (match r.err with
          | some err => .wrapError ("đọc " ++ fieldName ++ " lỗi: " ++ err.Error) err
          | none => .errorString ("đọc " ++ fieldName ++ " lỗi: độ dài kết quả không đúng")))) := by
  obtain ⟨results, err⟩ := r
  cases err with
  | some e => right; simp [Response.okFor, float32Outcome]
  | none =>
    by_cases h : results.length = 4
    · left
      obtain ⟨v, hv⟩ := bytesToFloat32_of_length h
      exact ⟨⟨rfl, h⟩, v, hv, by simp [float32Outcome, h, hv, Except.toOption]⟩
    · right
      simp [Response.okFor, float32Outcome, h]

theorem int64Outcome_cases (fieldName : String) (r : Response) :
    (r.okFor 4 ∧ ∃ v, bytesToInt64 r.results = .ok v ∧
        int64Outcome fieldName r = (some v, none)) ∨
    (¬ r.okFor 4 ∧ int64Outcome fieldName r =
        (none, some (match r.err with
          | some err => .wrapError ("đọc " ++ fieldName ++ " lỗi: " ++ err.Error) err
          | none => .errorString ("đọc " ++ fieldName ++ " lỗi: độ dài kết quả không đúng")))) := by
  obtain ⟨results, err⟩ := r
  cases err with
  | some e => right; simp [Response.okFor, int64Outcome]
  | none =>
    by_cases h : results.length = 8
    · left
      obtain ⟨v, hv⟩ := bytesToInt64_of_length h
      exact ⟨⟨rfl, h⟩, v, hv, by simp [int64Outcome, h, hv, Except.toOption]⟩
    · right
      simp [Response.okFor, int64Outcome, h]

theorem uint16Outcome_cases (fieldName : String) (r : Response) :
    (r.okFor 1 ∧ ∃ v, bytesToUint16 r.results = .ok v ∧
        uint16Outcome fieldName r = (some v, none)) ∨
    (¬ r.okFor 1 ∧ uint16Outcome fieldName r =
        (none, some (match r.err with
          | some err => .wrapError ("đọc " ++ fieldName ++ " lỗi: " ++ err.Error) err
          | none => .errorString ("đọc " ++ fieldName ++ " lỗi: độ dài kết quả không đúng")))) := by
  obtain ⟨results, err⟩ := r
  cases err with
  | some e => right; simp [Response.okFor, uint16Outcome]
  | none =>
    by_cases h : results.length = 2
    · left
      obtain ⟨v, hv⟩ := bytesToUint16_of_length h
      exact ⟨⟨rfl, h⟩, v, hv, by simp [uint16Outcome, h, hv, Except.toOption]⟩
    · right
      simp [Response.okFor, uint16Outcome, h]

theorem get_isSome_iff {σ : Type} (client : RTUClient σ) (slaveID : Nat) (s : σ)
    (data : PM2120Data) (f : PMField)
    (hget : f.get data =
      if (responseTo client slaveID s f).okFor f.quantity
      then (f.decode (responseTo client slaveID s f).results).toOption else none) :
    (f.get data).isSome ↔ (responseTo client slaveID s f).okFor f.quantity := by
  rw [hget]
  by_cases hok : (responseTo client slaveID s f).okFor f.quantity
  · obtain ⟨v, hv⟩ := decode_ok f hok.2
    simp [hok, hv, Except.toOption]
  · simp [hok]

/-! ## Big-endian decoding as positional sums -/

theorem or_eq_add_of_lt {lo hi k : Nat} (h : lo < 2 ^ k) :
    lo ||| hi * 2 ^ k = lo + hi * 2 ^ k := by
  rw [Nat.or_comm, Nat.mul_comm hi, ← Nat.mul_add_lt_is_or h, Nat.add_comm]

theorem Uint16_eq (b0 b1 : Byte) :
    BigEndian.Uint16 [b0, b1] = .ok (b0.val * 2 ^ 8 + b1.val) := by
  have h0 := b0.isLt
  have h1 := b1.isLt
  simp only [BigEndian.Uint16, Nat.shiftLeft_eq]
  rw [Nat.mod_eq_of_lt (by omega), or_eq_add_of_lt (by omega), Nat.add_comm]

theorem Uint32_eq (b0 b1 b2 b3 : Byte) :
    BigEndian.Uint32 [b0, b1, b2, b3] =
      .ok (b0.val * 2 ^ 24 + b1.val * 2 ^ 16 + b2.val * 2 ^ 8 + b3.val) := by
  have h0 := b0.isLt
  have h1 := b1.isLt
  have h2 := b2.isLt
  have h3 := b3.isLt
  simp only [BigEndian.Uint32, Nat.shiftLeft_eq]
  rw [Nat.mod_eq_of_lt (a := b2.val * 2 ^ 8) (by omega),
    Nat.mod_eq_of_lt (a := b1.val * 2 ^ 16) (by omega),
    Nat.mod_eq_of_lt (a := b0.val * 2 ^ 24) (by omega),
    or_eq_add_of_lt (k := 8) (by omega), or_eq_add_of_lt (k := 16) (by omega),
    or_eq_add_of_lt (k := 24) (by omega)]
  congr 1
  omega

theorem Uint64_eq (b0 b1 b2 b3 b4 b5 b6 b7 : Byte) :
    BigEndian.Uint64 [b0, b1, b2, b3, b4, b5, b6, b7] =
      .ok (b0.val * 2 ^ 56 + b1.val * 2 ^ 48 + b2.val * 2 ^ 40 + b3.val * 2 ^ 32
            + b4.val * 2 ^ 24 + b5.val * 2 ^ 16 + b6.val * 2 ^ 8 + b7.val) := by
  have h0 := b0.isLt
  have h1 := b1.isLt
  have h2 := b2.isLt
  have h3 := b3.isLt
  have h4 := b4.isLt
  have h5 := b5.isLt
  have h6 := b6.isLt
  have h7 := b7.isLt
  simp only [BigEndian.Uint64, Nat.shiftLeft_eq]
  rw [Nat.mod_eq_of_lt (a := b6.val * 2 ^ 8) (by omega),
    Nat.mod_eq_of_lt (a := b5.val * 2 ^ 16) (by omega),
    Nat.mod_eq_of_lt (a := b4.val * 2 ^ 24) (by omega),
    Nat.mod_eq_of_lt (a := b3.val * 2 ^ 32) (by omega),
    Nat.mod_eq_of_lt (a := b2.val * 2 ^ 40) (by omega),
    Nat.mod_eq_of_lt (a := b1.val * 2 ^ 48) (by omega),
    Nat.mod_eq_of_lt (a := b0.val * 2 ^ 56) (by omega),
    or_eq_add_of_lt (k := 8) (by omega), or_eq_add_of_lt (k := 16) (by omega),
    or_eq_add_of_lt (k := 24) (by omega), or_eq_add_of_lt (k := 32) (by omega),
    or_eq_add_of_lt (k := 40) (by omega), or_eq_add_of_lt (k := 48) (by omega),
    or_eq_add_of_lt (k := 56) (by omega)]
  congr 1
  omega

/-! ## Type decoders: claims C6, C7, C8 -/

/-- C6: for every four bytes `b0 b1 b2 b3`, `bytesToFloat32` returns the `float32`
whose bit pattern is the big-endian number `b0*2^24 + b1*2^16 + b2*2^8 + b3`; the
bytes `0x42 0x48 0x00 0x00` give the bit pattern `0x42480000`, which denotes 50. -/
theorem bytesToFloat32_big_endian_bits :
    (∀ b0 b1 b2 b3 : Byte, bytesToFloat32 [b0, b1, b2, b3] =
      .ok ⟨b0.val * 2 ^ 24 + b1.val * 2 ^ 16 + b2.val * 2 ^ 8 + b3.val⟩) ∧
    bytesToFloat32 [0x42, 0x48, 0x00, 0x00] = .ok ⟨0x42480000⟩ ∧
    float32.toRat ⟨0x42480000⟩ = some 50 := by
  refine ⟨?_, ?_, ?_⟩
  · intro b0 b1 b2 b3
    have h0 := b0.isLt
    have h1 := b1.isLt
    have h2 := b2.isLt
    have h3 := b3.isLt
    simp only [bytesToFloat32, Uint32_eq, Float32frombits, ok_bind]
    rw [Nat.mod_eq_of_lt (by omega)]
    rfl
  · rfl
  · norm_num [float32.toRat]

/-- C7: for every eight bytes, `bytesToInt64` is the two's-complement reading of
the unsigned big-endian number `u` of the bytes: `u` when `u < 2^63` and
`u - 2^64` otherwise; eight bytes `0xFF` decode to `-1`. -/
theorem bytesToInt64_twos_complement :
    (∀ b0 b1 b2 b3 b4 b5 b6 b7 : Byte,
      bytesToInt64 [b0, b1, b2, b3, b4, b5, b6, b7] =
        .ok (if b0.val * 2 ^ 56 + b1.val * 2 ^ 48 + b2.val * 2 ^ 40 + b3.val * 2 ^ 32
                + b4.val * 2 ^ 24 + b5.val * 2 ^ 16 + b6.val * 2 ^ 8 + b7.val < 2 ^ 63
             then ((b0.val * 2 ^ 56 + b1.val * 2 ^ 48 + b2.val * 2 ^ 40 + b3.val * 2 ^ 32
                + b4.val * 2 ^ 24 + b5.val * 2 ^ 16 + b6.val * 2 ^ 8 + b7.val : Nat) : Int)
             else ((b0.val * 2 ^ 56 + b1.val * 2 ^ 48 + b2.val * 2 ^ 40 + b3.val * 2 ^ 32
                + b4.val * 2 ^ 24 + b5.val * 2 ^ 16 + b6.val * 2 ^ 8 + b7.val : Nat) : Int)
                  - 2 ^ 64)) ∧
    bytesToInt64 [0xFF, 0xFF, 0xFF, 0xFF, 0xFF, 0xFF, 0xFF, 0xFF] = .ok (-1) := by
  refine ⟨?_, ?_⟩
  · intro b0 b1 b2 b3 b4 b5 b6 b7
    have h0 := b0.isLt
    have h1 := b1.isLt
    have h2 := b2.isLt
    have h3 := b3.isLt
    have h4 := b4.isLt
    have h5 := b5.isLt
    have h6 := b6.isLt
    have h7 := b7.isLt
    simp only [bytesToInt64, Uint64_eq, int64OfUint64, ok_bind]
    rw [Nat.mod_eq_of_lt (by omega)]
    rfl
  · rfl

/-- C8: decoding the big-endian encoding gives the value back: for every
`uint16`, for every `int64` (two's complement, 8 bytes) and, bit for bit, for
every 32-bit pattern of a `float32`. -/
theorem decode_encode_round_trip :
    (∀ v : Nat, v < 2 ^ 16 → bytesToUint16 (BigEndian.PutUint16 v) = .ok v) ∧
    (∀ v : Int, -2 ^ 63 ≤ v → v < 2 ^ 63 →
      bytesToInt64 (BigEndian.PutUint64 (uint64OfInt64 v)) = .ok v) ∧
    (∀ w : Nat, w < 2 ^ 32 → bytesToFloat32 (BigEndian.PutUint32 w) = .ok ⟨w⟩) := by
  refine ⟨?_, ?_, ?_⟩
  · intro v hv
    simp only [bytesToUint16, BigEndian.PutUint16, Uint16_eq, BigEndian.byte,
      Nat.shiftRight_eq_div_pow]
    congr 1
    omega
  · intro v hlo hhi
    simp only [bytesToInt64, BigEndian.PutUint64, Uint64_eq, BigEndian.byte,
      Nat.shiftRight_eq_div_pow, ok_bind]
    have hu : ((uint64OfInt64 v : Nat) : Int) = v % 2 ^ 64 := by
      unfold uint64OfInt64
      exact Int.toNat_of_nonneg (Int.emod_nonneg _ (by norm_num))
    generalize uint64OfInt64 v = u at hu ⊢
    have hsum : u / 2 ^ 56 % 256 * 2 ^ 56 + u / 2 ^ 48 % 256 * 2 ^ 48
        + u / 2 ^ 40 % 256 * 2 ^ 40 + u / 2 ^ 32 % 256 * 2 ^ 32 + u / 2 ^ 24 % 256 * 2 ^ 24
        + u / 2 ^ 16 % 256 * 2 ^ 16 + u / 2 ^ 8 % 256 * 2 ^ 8 + u % 256 = u := by omega
    rw [hsum]
    show Except.ok (int64OfUint64 u) = Except.ok v
    unfold int64OfUint64
    congr 1
    split <;> omega
  · intro w hw
    simp only [bytesToFloat32, BigEndian.PutUint32, Uint32_eq, BigEndian.byte,
      Nat.shiftRight_eq_div_pow, Float32frombits, ok_bind]
    have hsum : (w / 2 ^ 24 % 256 * 2 ^ 24 + w / 2 ^ 16 % 256 * 2 ^ 16
        + w / 2 ^ 8 % 256 * 2 ^ 8 + w % 256) % 2 ^ 32 = w := by omega
    rw [hsum]
    rfl

theorem decode_encode_round_trip_witness :
    bytesToUint16 (BigEndian.PutUint16 0xABCD) = .ok 0xABCD ∧
    bytesToInt64 (BigEndian.PutUint64 (uint64OfInt64 (-2))) = .ok (-2) ∧
    bytesToFloat32 (BigEndian.PutUint32 0x42480000) = .ok ⟨0x42480000⟩ :=
  ⟨decode_encode_round_trip.1 0xABCD (by decide),
   decode_encode_round_trip.2.1 (-2) (by decide) (by decide),
   decode_encode_round_trip.2.2 0x42480000 (by decide)⟩

/-! ## The extended snapshot: claims C1 to C5 -/

/-- C1: over a transport that is a function of (slave id, address, quantity) and
whose every read succeeds with exactly `2 * quantity` bytes, `ReadPM2120Data`
returns a snapshot with a nil error in which every `float32` field holds
`bytesToFloat32` of the response to its own address with quantity 2 and every
energy field holds `bytesToInt64` of the response to its own address with
quantity 4, without scaling. -/
theorem ReadPM2120Data_decodes_own_address (t : Nat → Nat → Nat → Response) (slaveID : Nat)
    (h : ∀ sl address quantity, (t sl address quantity).okFor quantity) :
    ∃ data, (ReadPM2120Data (RTUClient.ofFun t) slaveID).run () = .ok ((data, none), ()) ∧
      ∀ f : PMField,
        (f.isInt64 = false → ∃ v, bytesToFloat32 (t slaveID f.addr 2).results = .ok v ∧
          f.get data = some (.f32 v)) ∧
        (f.isInt64 = true → ∃ v, bytesToInt64 (t slaveID f.addr 4).results = .ok v ∧
          f.get data = some (.i64 v)) := by
  obtain ⟨data, hrun, -, hget⟩ := ReadPM2120Data_run (RTUClient.ofFun t) slaveID ()
  have herr : (PMField.all.map fun f =>
      f.error (responseTo (RTUClient.ofFun t) slaveID () f)).foldl accumulate none = none := by
    rw [foldl_accumulate_eq_none]
    refine ⟨rfl, ?_⟩
    intro e he
    obtain ⟨f, -, rfl⟩ := List.mem_map.1 he
    exact (error_eq_none_iff f _).2 (h _ _ _)
  rw [herr] at hrun
  refine ⟨data, hrun, ?_⟩
  intro f
  have hf := hget f
  rw [responseTo_ofFun, if_pos (h _ _ _)] at hf
  have hlen := (h slaveID f.addr f.quantity).2
  constructor
  · intro hfalse
    have hq : f.quantity = 2 := by simp [PMField.quantity, hfalse]
    rw [hq] at hlen hf
    obtain ⟨v, hv⟩ := bytesToFloat32_of_length (b := (t slaveID f.addr 2).results) hlen
    refine ⟨v, hv, ?_⟩
    rw [hf]
    simp [PMField.decode, hfalse, hv, Except.map, Except.toOption]
  · intro htrue
    have hq : f.quantity = 4 := by simp [PMField.quantity, htrue]
    rw [hq] at hlen hf
    obtain ⟨v, hv⟩ := bytesToInt64_of_length (b := (t slaveID f.addr 4).results) hlen
    refine ⟨v, hv, ?_⟩
    rw [hf]
    simp [PMField.decode, htrue, hv, Except.map, Except.toOption]

theorem ReadPM2120Data_decodes_own_address_witness :
    ∃ data, (ReadPM2120Data (RTUClient.ofFun zeroTransport) 1).run () = .ok ((data, none), ()) ∧
      ∀ f : PMField,
        (f.isInt64 = false → ∃ v, bytesToFloat32 (zeroTransport 1 f.addr 2).results = .ok v ∧
          f.get data = some (.f32 v)) ∧
        (f.isInt64 = true → ∃ v, bytesToInt64 (zeroTransport 1 f.addr 4).results = .ok v ∧
          f.get data = some (.i64 v)) :=
  ReadPM2120Data_decodes_own_address zeroTransport 1
    (fun _ _ quantity => ⟨rfl, by simp [zeroTransport]⟩)

/-- C2: for every transport and every state of it, `ReadPM2120Data` returns (it
does not abort) a snapshot in which a read field is non-nil exactly when its own
read returned no error and `2 * quantity` bytes (`CurrentN`, never read, is
nil), and the returned error accumulates the errors of the failed reads only,
in the order of the reads. When the read of field `x` alone
fails, `x` is nil, every other read field is non-nil, and the returned error is
the single wrapping `<nil>; đọc x lỗi: cause` of the error of field `x`. -/
theorem ReadPM2120Data_failure_isolation {σ : Type} (client : RTUClient σ) (slaveID : Nat)
    (s : σ) :
    ∃ data err s', (ReadPM2120Data client slaveID).run s = .ok ((data, err), s') ∧
      data.CurrentN = none ∧
      (∀ f : PMField, (f.get data).isSome ↔ (responseTo client slaveID s f).okFor f.quantity) ∧
      err = ((PMField.all.filter fun f =>
                decide (¬ (responseTo client slaveID s f).okFor f.quantity)).map
              fun f => f.error (responseTo client slaveID s f)).foldl accumulate none ∧
      (∀ x : PMField, ¬ (responseTo client slaveID s x).okFor x.quantity →
        (∀ f : PMField, f ≠ x → (responseTo client slaveID s f).okFor f.quantity) →
        x.get data = none ∧ (∀ f : PMField, f ≠ x → (f.get data).isSome) ∧
        ∃ e, x.error (responseTo client slaveID s x) = some e ∧
          e.Error = "đọc " ++ x.name ++ " lỗi: " ++ failureCause (responseTo client slaveID s x) ∧
          err = some (.wrapError ("<nil>" ++ "; " ++ ("đọc " ++ x.name ++ " lỗi: "
                  ++ failureCause (responseTo client slaveID s x))) e)) := by
  obtain ⟨data, hrun, hN, hget⟩ := ReadPM2120Data_run client slaveID s
  refine ⟨data, _, _, hrun, hN, fun f => get_isSome_iff client slaveID s data f (hget f),
    foldl_accumulate_filter _ _ (fun f => by
      rw [decide_eq_true_iff, Ne, error_eq_none_iff]) _ _, ?_⟩
  intro x hx hothers
  refine ⟨?_, ?_, ?_⟩
  · rw [hget x, if_neg hx]
  · intro f hf
    exact (get_isSome_iff client slaveID s data f (hget f)).2 (hothers f hf)
  · obtain ⟨e, he, hmsg⟩ := error_of_not_ok x _ hx
    refine ⟨e, he, hmsg, ?_⟩
    rw [foldl_accumulate_single (fun f => f.error (responseTo client slaveID s f)) x
        PMField.all PMField.all_nodup none
        (fun f _ hne => (error_eq_none_iff f _).2 (hothers f hne)),
      if_pos (PMField.mem_all x)]
    simp only [he, accumulate, fmtV, hmsg]

theorem ReadPM2120Data_failure_isolation_witness :
    ∃ data err s', (ReadPM2120Data (RTUClient.ofFun frequencyTimeout) 1).run () =
        .ok ((data, err), s') ∧
      PMField.Frequency.get data = none ∧
      (∀ f : PMField, f ≠ .Frequency → (f.get data).isSome) ∧
      err = some (.wrapError "<nil>; đọc Frequency lỗi: timeout"
        (.wrapError "đọc Frequency lỗi: timeout" (.errorString "timeout"))) := by
  obtain ⟨data, err, s', hrun, -, -, -, hsingle⟩ :=
    ReadPM2120Data_failure_isolation (RTUClient.ofFun frequencyTimeout) 1 ()
  have hx : ¬ (responseTo (RTUClient.ofFun frequencyTimeout) 1 () .Frequency).okFor
      PMField.Frequency.quantity := by
    rw [responseTo_ofFun]
    decide
  have hothers : ∀ f : PMField, f ≠ .Frequency →
      (responseTo (RTUClient.ofFun frequencyTimeout) 1 () f).okFor f.quantity := by
    intro f hf
    rw [responseTo_ofFun]
    cases f <;> first | exact absurd rfl hf | decide
  obtain ⟨hnil, hrest, e, he, -, herr⟩ := hsingle .Frequency hx hothers
  refine ⟨data, err, s', hrun, hnil, hrest, ?_⟩
  rw [herr]
  have he' : e = .wrapError "đọc Frequency lỗi: timeout" (.errorString "timeout") := by
    have : PMField.Frequency.error (responseTo (RTUClient.ofFun frequencyTimeout) 1 ()
        .Frequency) = some (.wrapError "đọc Frequency lỗi: timeout" (.errorString "timeout")) := by
      rw [responseTo_ofFun]
      rfl
    rw [this] at he
    exact (Option.some.inj he).symm
  rw [he']
  rfl

/-- C3: for every transport, the error returned by `ReadPM2120Data` is non-nil
exactly when at least one of its reads failed (transport error or wrong number
of bytes); when every read succeeds with the right length the error is nil. -/
theorem ReadPM2120Data_error_iff_some_read_failed {σ : Type} (client : RTUClient σ)
    (slaveID : Nat) (s : σ) :
    ∃ data err s', (ReadPM2120Data client slaveID).run s = .ok ((data, err), s') ∧
      (err ≠ none ↔ ∃ f : PMField, ¬ (responseTo client slaveID s f).okFor f.quantity) ∧
      ((∀ f : PMField, (responseTo client slaveID s f).okFor f.quantity) → err = none) := by
  obtain ⟨data, hrun, -, -⟩ := ReadPM2120Data_run client slaveID s
  have hiff : (PMField.all.map fun f =>
      f.error (responseTo client slaveID s f)).foldl accumulate none = none ↔
      ∀ f : PMField, (responseTo client slaveID s f).okFor f.quantity := by
    rw [foldl_accumulate_eq_none]
    constructor
    · rintro ⟨-, hall⟩ f
      exact (error_eq_none_iff f _).1 (hall _ (List.mem_map.2 ⟨f, PMField.mem_all f, rfl⟩))
    · intro hall
      refine ⟨rfl, ?_⟩
      intro e he
      obtain ⟨f, -, rfl⟩ := List.mem_map.1 he
      exact (error_eq_none_iff f _).2 (hall f)
  refine ⟨data, _, _, hrun, ?_, hiff.2⟩
  rw [Ne, hiff]
  push_neg
  rfl

theorem ReadPM2120Data_error_iff_some_read_failed_witness :
    ∃ data s', (ReadPM2120Data (RTUClient.ofFun zeroTransport) 1).run () =
      .ok ((data, none), s') := by
  obtain ⟨data, err, s', hrun, -, hnone⟩ :=
    ReadPM2120Data_error_iff_some_read_failed (RTUClient.ofFun zeroTransport) 1 ()
  have herr : err = none := by
    apply hnone
    intro f
    rw [responseTo_ofFun]
    exact ⟨rfl, by simp [zeroTransport]⟩
  exact ⟨data, s', herr ▸ hrun⟩

/-- C4: when the transport returns no error and a number of bytes different from
the width of the encoding (4, 8, 2), shorter or longer, each helper returns
`(nil, error)` whose content does not depend on the bytes, and it does not panic;
a helper returns a value only when the response has exactly the width, the value
being the decoder applied to it; `ReadPM2120Data` never panics. -/
theorem length_validated_before_decoding {σ : Type} (client : RTUClient σ)
    (slaveID addr : Nat) (fieldName : String) (s : σ) :
    ((client.transport slaveID addr 2 s).1.err = none →
      (client.transport slaveID addr 2 s).1.results.length ≠ 4 →
      (readAndDecodeFloat32 client slaveID addr fieldName).run s =
        .ok ((none, some (.errorString ("đọc " ++ fieldName ++ " lỗi: độ dài kết quả không đúng"))),
          (client.transport slaveID addr 2 s).2)) ∧
    ((client.transport slaveID addr 4 s).1.err = none →
      (client.transport slaveID addr 4 s).1.results.length ≠ 8 →
      (readAndDecodeInt64 client slaveID addr fieldName).run s =
        .ok ((none, some (.errorString ("đọc " ++ fieldName ++ " lỗi: độ dài kết quả không đúng"))),
          (client.transport slaveID addr 4 s).2)) ∧
    ((client.transport slaveID addr 1 s).1.err = none →
      (client.transport slaveID addr 1 s).1.results.length ≠ 2 →
      (readAndDecodeUint16 client slaveID addr fieldName).run s =
        .ok ((none, some (.errorString ("đọc " ++ fieldName ++ " lỗi: độ dài kết quả không đúng"))),
          (client.transport slaveID addr 1 s).2)) ∧
    (∀ v e s', (readAndDecodeFloat32 client slaveID addr fieldName).run s = .ok ((some v, e), s') →
      (client.transport slaveID addr 2 s).1.results.length = 4 ∧
      bytesToFloat32 (client.transport slaveID addr 2 s).1.results = .ok v) ∧
    (∀ v e s', (readAndDecodeInt64 client slaveID addr fieldName).run s = .ok ((some v, e), s') →
      (client.transport slaveID addr 4 s).1.results.length = 8 ∧
      bytesToInt64 (client.transport slaveID addr 4 s).1.results = .ok v) ∧
    (∀ v e s', (readAndDecodeUint16 client slaveID addr fieldName).run s = .ok ((some v, e), s') →
      (client.transport slaveID addr 1 s).1.results.length = 2 ∧
      bytesToUint16 (client.transport slaveID addr 1 s).1.results = .ok v) ∧
    (∃ out, (ReadPM2120Data client slaveID).run s = .ok out) := by
  refine ⟨?_, ?_, ?_, ?_, ?_, ?_, ?_⟩
  · intro herr hlen
    rw [readAndDecodeFloat32_run]
    rcases float32Outcome_cases fieldName (client.transport slaveID addr 2 s).1 with
      ⟨hok, -⟩ | ⟨-, hout⟩
    · exact absurd hok.2 hlen
    · rw [hout, herr]
  · intro herr hlen
    rw [readAndDecodeInt64_run]
    rcases int64Outcome_cases fieldName (client.transport slaveID addr 4 s).1 with
      ⟨hok, -⟩ | ⟨-, hout⟩
    · exact absurd hok.2 hlen
    · rw [hout, herr]
  · intro herr hlen
    rw [readAndDecodeUint16_run]
    rcases uint16Outcome_cases fieldName (client.transport slaveID addr 1 s).1 with
      ⟨hok, -⟩ | ⟨-, hout⟩
    · exact absurd hok.2 hlen
    · rw [hout, herr]
  · intro v e s' hrun
    rw [readAndDecodeFloat32_run] at hrun
    rcases float32Outcome_cases fieldName (client.transport slaveID addr 2 s).1 with
      ⟨hok, w, hw, hout⟩ | ⟨-, hout⟩
    · rw [hout] at hrun
      injection hrun with hrun
      injection hrun with hp
      injection hp with hv
      injection hv with hv
      exact ⟨hok.2, hv ▸ hw⟩
    · rw [hout] at hrun
      injection hrun with hrun
      injection hrun with hp
      injection hp with hv
      exact absurd hv (by simp)
  · intro v e s' hrun
    rw [readAndDecodeInt64_run] at hrun
    rcases int64Outcome_cases fieldName (client.transport slaveID addr 4 s).1 with
      ⟨hok, w, hw, hout⟩ | ⟨-, hout⟩
    · rw [hout] at hrun
      injection hrun with hrun
      injection hrun with hp
      injection hp with hv
      injection hv with hv
      exact ⟨hok.2, hv ▸ hw⟩
    · rw [hout] at hrun
      injection hrun with hrun
      injection hrun with hp
      injection hp with hv
      exact absurd hv (by simp)
  · intro v e s' hrun
    rw [readAndDecodeUint16_run] at hrun
    rcases uint16Outcome_cases fieldName (client.transport slaveID addr 1 s).1 with
      ⟨hok, w, hw, hout⟩ | ⟨-, hout⟩
    · rw [hout] at hrun
      injection hrun with hrun
      injection hrun with hp
      injection hp with hv
      injection hv with hv
      exact ⟨hok.2, hv ▸ hw⟩
    · rw [hout] at hrun
      injection hrun with hrun
      injection hrun with hp
      injection hp with hv
      exact absurd hv (by simp)
  · obtain ⟨data, hrun, -, -⟩ := ReadPM2120Data_run client slaveID s
    exact ⟨_, hrun⟩

theorem length_validated_before_decoding_witness :
    (readAndDecodeFloat32 threeBytes 1 addrCurrentA "CurrentA").run 0 =
      .ok ((none, some (.errorString "đọc CurrentA lỗi: độ dài kết quả không đúng")), 1) ∧
    (readAndDecodeInt64 threeBytes 1 addrCurrentA "CurrentA").run 0 =
      .ok ((none, some (.errorString "đọc CurrentA lỗi: độ dài kết quả không đúng")), 1) ∧
    (readAndDecodeUint16 threeBytes 1 addrCurrentA "CurrentA").run 0 =
      .ok ((none, some (.errorString "đọc CurrentA lỗi: độ dài kết quả không đúng")), 1) :=
  ⟨(length_validated_before_decoding threeBytes 1 addrCurrentA "CurrentA" 0).1 rfl
      (by decide),
   (length_validated_before_decoding threeBytes 1 addrCurrentA "CurrentA" 0).2.1 rfl
      (by decide),
   (length_validated_before_decoding threeBytes 1 addrCurrentA "CurrentA" 0).2.2.1 rfl
      (by decide)⟩

/-- C5: each helper returns a nil pointer exactly when it returns an error and a
non-nil pointer exactly when it returns no error; a response of zero bytes of
the right length gives a non-nil pointer to zero; in the snapshot of
`ReadPM2120Data` a field whose response is all zero is a pointer to zero and a
field whose read failed is nil. -/
theorem zero_distinct_from_unavailable {σ : Type} (client : RTUClient σ)
    (slaveID addr : Nat) (fieldName : String) (s : σ) :
    (∃ v e s', (readAndDecodeFloat32 client slaveID addr fieldName).run s = .ok ((v, e), s') ∧
      (v = none ↔ e ≠ none) ∧ (v ≠ none ↔ e = none)) ∧
    (∃ v e s', (readAndDecodeInt64 client slaveID addr fieldName).run s = .ok ((v, e), s') ∧
      (v = none ↔ e ≠ none) ∧ (v ≠ none ↔ e = none)) ∧
    (∃ v e s', (readAndDecodeUint16 client slaveID addr fieldName).run s = .ok ((v, e), s') ∧
      (v = none ↔ e ≠ none) ∧ (v ≠ none ↔ e = none)) ∧
    ((client.transport slaveID addr 2 s).1 = ⟨[0, 0, 0, 0], none⟩ →
      ∃ s', (readAndDecodeFloat32 client slaveID addr fieldName).run s =
        .ok ((some ⟨0⟩, none), s')) ∧
    ((client.transport slaveID addr 4 s).1 = ⟨[0, 0, 0, 0, 0, 0, 0, 0], none⟩ →
      ∃ s', (readAndDecodeInt64 client slaveID addr fieldName).run s =
        .ok ((some 0, none), s')) ∧
    ((client.transport slaveID addr 1 s).1 = ⟨[0, 0], none⟩ →
      ∃ s', (readAndDecodeUint16 client slaveID addr fieldName).run s =
        .ok ((some 0, none), s')) ∧
    float32.toRat ⟨0⟩ = some 0 ∧
    (∃ data err s', (ReadPM2120Data client slaveID).run s = .ok ((data, err), s') ∧
      ∀ f : PMField,
        ((responseTo client slaveID s f) = ⟨List.replicate (2 * f.quantity) 0, none⟩ →
          f.get data = some f.zero) ∧
        (¬ (responseTo client slaveID s f).okFor f.quantity → f.get data = none)) := by
  refine ⟨?_, ?_, ?_, ?_, ?_, ?_, ?_, ?_⟩
  · rcases float32Outcome_cases fieldName (client.transport slaveID addr 2 s).1 with
      ⟨-, w, -, hout⟩ | ⟨-, hout⟩
    · exact ⟨some w, none, _, by rw [readAndDecodeFloat32_run, hout], by simp⟩
    · exact ⟨none, some _, _, by rw [readAndDecodeFloat32_run, hout], by simp⟩
  · rcases int64Outcome_cases fieldName (client.transport slaveID addr 4 s).1 with
      ⟨-, w, -, hout⟩ | ⟨-, hout⟩
    · exact ⟨some w, none, _, by rw [readAndDecodeInt64_run, hout], by simp⟩
    · exact ⟨none, some _, _, by rw [readAndDecodeInt64_run, hout], by simp⟩
  · rcases uint16Outcome_cases fieldName (client.transport slaveID addr 1 s).1 with
      ⟨-, w, -, hout⟩ | ⟨-, hout⟩
    · exact ⟨some w, none, _, by rw [readAndDecodeUint16_run, hout], by simp⟩
    · exact ⟨none, some _, _, by rw [readAndDecodeUint16_run, hout], by simp⟩
  · intro h
    refine ⟨(client.transport slaveID addr 2 s).2, ?_⟩
    rw [readAndDecodeFloat32_run, h]
    rfl
  · intro h
    refine ⟨(client.transport slaveID addr 4 s).2, ?_⟩
    rw [readAndDecodeInt64_run, h]
    rfl
  · intro h
    refine ⟨(client.transport slaveID addr 1 s).2, ?_⟩
    rw [readAndDecodeUint16_run, h]
    rfl
  · norm_num [float32.toRat]
  · obtain ⟨data, hrun, -, hget⟩ := ReadPM2120Data_run client slaveID s
    refine ⟨data, _, _, hrun, ?_⟩
    intro f
    constructor
    · intro h
      rw [hget f, h]
      cases hf : f.isInt64 <;>
        simp [Response.okFor, PMField.quantity, PMField.decode, PMField.zero, hf] <;> rfl
    · intro h
      rw [hget f, if_neg h]

theorem zero_distinct_from_unavailable_witness :
    (∃ s', (readAndDecodeFloat32 (RTUClient.ofFun zeroTransport) 1 addrCurrentA "CurrentA").run ()
      = .ok ((some ⟨0⟩, none), s')) ∧
    (∃ s', (readAndDecodeInt64 (RTUClient.ofFun zeroTransport) 1 addrCurrentA "CurrentA").run ()
      = .ok ((some 0, none), s')) ∧
    (∃ s', (readAndDecodeUint16 (RTUClient.ofFun zeroTransport) 1 addrCurrentA "CurrentA").run ()
      = .ok ((some 0, none), s')) :=
  ⟨(zero_distinct_from_unavailable (RTUClient.ofFun zeroTransport) 1 addrCurrentA
      "CurrentA" ()).2.2.2.1 rfl,
   (zero_distinct_from_unavailable (RTUClient.ofFun zeroTransport) 1 addrCurrentA
      "CurrentA" ()).2.2.2.2.1 rfl,
   (zero_distinct_from_unavailable (RTUClient.ofFun zeroTransport) 1 addrCurrentA
      "CurrentA" ()).2.2.2.2.2.1 rfl⟩

/-! ## The basic snapshot: claims C9 and C10 -/

theorem Client_ReadHoldingRegisters_run {σ : Type} (c : Client σ) (address quantity : Nat)
    (s : σ) :
    (c.ReadHoldingRegisters address quantity).run s =
      .ok (c.client.ReadHoldingRegisters address quantity s) := rfl

/-- C9, amended: `ReadData` has no per-field isolation. It makes a single read
(address 0, quantity 13) that backs all thirteen fields, and when that read
returns an error, `ReadData` returns a nil snapshot together with that same
error, unchanged. -/
theorem ReadData_fails_fast {σ : Type} (svc : InverterService σ) (now : Nat) (s : σ)
    (e : GoError) (h : (svc.client.client.ReadHoldingRegisters 0 13 s).1.err = some e) :
    (svc.ReadData now).run s =
      .ok ((none, some e), (svc.client.client.ReadHoldingRegisters 0 13 s).2) := by
  rw [InverterService.ReadData, StateT.run_bind, Client_ReadHoldingRegisters_run, ok_bind]
  generalize svc.client.client.ReadHoldingRegisters 0 13 s = p at h ⊢
  obtain ⟨⟨results, err⟩, s1⟩ := p
  simp only at h
  subst h
  rfl

theorem ReadData_fails_fast_witness :
    (InverterService.ReadData (InverterService.ofFun blockReadTimeout) 0).run () =
      .ok ((none, some (.errorString "timeout")), ()) :=
  ReadData_fails_fast (InverterService.ofFun blockReadTimeout) 0 ()
    (.errorString "timeout") rfl

/-- Counterexample to C9 as stated: over a transport whose read of the register block
(the read that backs field `DeviceStatus`, and every other field) times out,
`ReadData` returns no snapshot at all, so no field holds a decoded value. -/
theorem ReadData_not_isolated :
    (InverterService.ReadData (InverterService.ofFun blockReadTimeout) 0).run () =
        .ok ((none, some (.errorString "timeout")), ()) ∧
    ¬ ∃ (d : InverterData) (err : Option GoError) (s' : Unit),
      (InverterService.ReadData (InverterService.ofFun blockReadTimeout) 0).run () =
        .ok ((some d, err), s') := by
  have h : (InverterService.ReadData (InverterService.ofFun blockReadTimeout) 0).run () =
      .ok ((none, some (.errorString "timeout")), ()) := rfl
  refine ⟨h, ?_⟩
  rintro ⟨d, err, s', hd⟩
  rw [h] at hd
  injection hd with hd
  injection hd with hd
  injection hd with hd
  exact absurd hd (by simp)

/-- Every response without error and with fewer than 26 bytes makes `ReadData`
panic with an index out of range. -/
theorem ReadData_short_response_panics {σ : Type} (svc : InverterService σ) (now : Nat)
    (s : σ) (herr : (svc.client.client.ReadHoldingRegisters 0 13 s).1.err = none)
    (hlen : (svc.client.client.ReadHoldingRegisters 0 13 s).1.results.length < 26) :
    ∃ i, (svc.ReadData now).run s = .error (.indexOutOfRange i
      (svc.client.client.ReadHoldingRegisters 0 13 s).1.results.length) := by
  rw [InverterService.ReadData, StateT.run_bind, Client_ReadHoldingRegisters_run, ok_bind]
  generalize svc.client.client.ReadHoldingRegisters 0 13 s = p at herr hlen ⊢
  obtain ⟨⟨results, err⟩, s1⟩ := p
  simp only at herr hlen
  subst herr
  match results, hlen with
  | [], _ => exact ⟨_, rfl⟩
  | [_], _ => exact ⟨_, rfl⟩
  | [_, _], _ => exact ⟨_, rfl⟩
  | [_, _, _], _ => exact ⟨_, rfl⟩
  | [_, _, _, _], _ => exact ⟨_, rfl⟩
  | [_, _, _, _, _], _ => exact ⟨_, rfl⟩
  | [_, _, _, _, _, _], _ => exact ⟨_, rfl⟩
  | [_, _, _, _, _, _, _], _ => exact ⟨_, rfl⟩
  | [_, _, _, _, _, _, _, _], _ => exact ⟨_, rfl⟩
  | [_, _, _, _, _, _, _, _, _], _ => exact ⟨_, rfl⟩
  | [_, _, _, _, _, _, _, _, _, _], _ => exact ⟨_, rfl⟩
  | [_, _, _, _, _, _, _, _, _, _, _], _ => exact ⟨_, rfl⟩
  | [_, _, _, _, _, _, _, _, _, _, _, _], _ => exact ⟨_, rfl⟩
  | [_, _, _, _, _, _, _, _, _, _, _, _, _], _ => exact ⟨_, rfl⟩
  | [_, _, _, _, _, _, _, _, _, _, _, _, _, _], _ => exact ⟨_, rfl⟩
  | [_, _, _, _, _, _, _, _, _, _, _, _, _, _, _], _ => exact ⟨_, rfl⟩
  | [_, _, _, _, _, _, _, _, _, _, _, _, _, _, _, _], _ => exact ⟨_, rfl⟩
  | [_, _, _, _, _, _, _, _, _, _, _, _, _, _, _, _, _], _ => exact ⟨_, rfl⟩
  | [_, _, _, _, _, _, _, _, _, _, _, _, _, _, _, _, _, _], _ => exact ⟨_, rfl⟩
  | [_, _, _, _, _, _, _, _, _, _, _, _, _, _, _, _, _, _, _], _ => exact ⟨_, rfl⟩
  | [_, _, _, _, _, _, _, _, _, _, _, _, _, _, _, _, _, _, _, _], _ => exact ⟨_, rfl⟩
  | [_, _, _, _, _, _, _, _, _, _, _, _, _, _, _, _, _, _, _, _, _], _ => exact ⟨_, rfl⟩
  | [_, _, _, _, _, _, _, _, _, _, _, _, _, _, _, _, _, _, _, _, _, _], _ => exact ⟨_, rfl⟩
  | [_, _, _, _, _, _, _, _, _, _, _, _, _, _, _, _, _, _, _, _, _, _, _], _ => exact ⟨_, rfl⟩
  | [_, _, _, _, _, _, _, _, _, _, _, _, _, _, _, _, _, _, _, _, _, _, _, _], _ => exact ⟨_, rfl⟩
  | [_, _, _, _, _, _, _, _, _, _, _, _, _, _, _, _, _, _, _, _, _, _, _, _, _], _ => exact ⟨_, rfl⟩
  | _ :: _ :: _ :: _ :: _ :: _ :: _ :: _ :: _ :: _ :: _ :: _ :: _ :: _ :: _ :: _ :: _ :: _ :: _ :: _ :: _ :: _ :: _ :: _ :: _ :: _ :: _, h => exact absurd h (by simp)

/-- C10, at the failing input: a response of four bytes without error (two
registers instead of thirteen) is not rejected by a length check; `ReadData`
panics at `data[4]`, index 4 being out of range for length 4. A response of 27
bytes is not rejected either: a snapshot is returned with a nil error. -/
theorem ReadData_panics_on_four_bytes :
    (InverterService.ReadData (InverterService.ofFun twoRegisters) 0).run () =
      .error (.indexOutOfRange 4 4) ∧
    ∃ d, (InverterService.ReadData
        (InverterService.ofFun fun _ _ => ⟨simulatorRegisters ++ [0xFF], none⟩) 0).run () =
      .ok ((some d, none), ()) :=
  ⟨rfl, _, rfl⟩

/-! ## The basic snapshot: claims C11, C12 and C19 -/

theorem roundBinary64_eq_parts (n d : Nat) (hn : n ≠ 0) :
    roundBinary64 n d = ((binary64Parts n d).1 : ℚ) * 2 ^ (-(binary64Parts n d).2) := by
  simp only [roundBinary64, binary64Parts, hn, if_false]

theorem roundNearestEven_close (a d : Nat) (hd : 0 < d) :
    |((roundNearestEven a d : Nat) : ℚ) - (a : ℚ) / d| ≤ 1 / 2 := by
  have hdq : (0 : ℚ) < d := by exact_mod_cast hd
  have hdiv : (a : ℚ) / d = (a / d : Nat) + ((a % d : Nat) : ℚ) / d := by
    have h := Nat.div_add_mod a d
    have h' : (a : ℚ) = d * (a / d : Nat) + (a % d : Nat) := by exact_mod_cast h.symm
    field_simp
    linarith
  have hr : ((a % d : Nat) : ℚ) < d := by exact_mod_cast Nat.mod_lt a hd
  have hr0 : (0 : ℚ) ≤ ((a % d : Nat) : ℚ) := by positivity
  unfold roundNearestEven
  simp only
  rw [hdiv]
  split_ifs with h1 h2 h3
  · have h1q : (2 : ℚ) * ((a % d : Nat) : ℚ) < d := by exact_mod_cast h1
    rw [sub_add_cancel_left, abs_neg, abs_of_nonneg (by positivity), div_le_iff₀ hdq]
    linarith
  · have h2q : (d : ℚ) < 2 * ((a % d : Nat) : ℚ) := by exact_mod_cast h2
    push_cast
    have : ((a / d : Nat) : ℚ) + 1 - (((a / d : Nat) : ℚ) + ((a % d : Nat) : ℚ) / d) =
        1 - ((a % d : Nat) : ℚ) / d := by ring
    rw [this, abs_of_nonneg, sub_le_iff_le_add, ← sub_le_iff_le_add', le_div_iff₀ hdq]
    · linarith
    · rw [sub_nonneg, div_le_one hdq]
      exact hr.le
  · have heq : (2 : ℚ) * ((a % d : Nat) : ℚ) = d := by
      have : 2 * (a % d) = d := by omega
      exact_mod_cast this
    rw [sub_add_cancel_left, abs_neg, abs_of_nonneg (by positivity), div_le_iff₀ hdq]
    linarith
  · have heq : (2 : ℚ) * ((a % d : Nat) : ℚ) = d := by
      have : 2 * (a % d) = d := by omega
      exact_mod_cast this
    push_cast
    have : ((a / d : Nat) : ℚ) + 1 - (((a / d : Nat) : ℚ) + ((a % d : Nat) : ℚ) / d) =
        1 - ((a % d : Nat) : ℚ) / d := by ring
    rw [this, abs_of_nonneg, sub_le_iff_le_add, ← sub_le_iff_le_add', le_div_iff₀ hdq]
    · linarith
    · rw [sub_nonneg, div_le_one hdq]
      exact hr.le

theorem floorLog2Aux_le (fuel n j : Nat) (h : n < 2 ^ (j + 1)) : floorLog2Aux fuel n ≤ j := by
  induction fuel generalizing n j with
  | zero => simp [floorLog2Aux]
  | succ fuel ih =>
    unfold floorLog2Aux
    split_ifs with h2
    · omega
    · cases j with
      | zero => simp at h; omega
      | succ j =>
        have : n / 2 < 2 ^ (j + 1) := by
          rw [Nat.div_lt_iff_lt_mul (by decide)]
          rw [pow_succ] at h
          exact h
        have := ih (n / 2) j this
        omega

theorem floorLog2Aux_spec (fuel n : Nat) (h1 : 1 ≤ n) (hf : n ≤ fuel) :
    2 ^ floorLog2Aux fuel n ≤ n ∧ n < 2 ^ (floorLog2Aux fuel n + 1) := by
  induction fuel generalizing n with
  | zero => omega
  | succ fuel ih =>
    unfold floorLog2Aux
    split_ifs with h2
    · simp
      omega
    · have hih := ih (n / 2) (by omega) (by omega)
      have hdm := Nat.div_add_mod n 2
      have hm : n % 2 < 2 := Nat.mod_lt _ (by decide)
      constructor
      · rw [pow_succ]
        omega
      · rw [pow_succ]
        omega

theorem floorLog2_spec (n : Nat) (h1 : 1 ≤ n) :
    2 ^ floorLog2 n ≤ n ∧ n < 2 ^ (floorLog2 n + 1) :=
  floorLog2Aux_spec n n h1 le_rfl

theorem binary64Parts_spec (n d : Nat) (hn : 1 ≤ n) (hn53 : n < 2 ^ 53) (hd : 1 ≤ d) :
    0 ≤ (binary64Parts n d).2 ∧
    |((binary64Parts n d).1 : ℚ) - (n : ℚ) * 2 ^ (binary64Parts n d).2 / d| ≤ 1 / 2 ∧
    (2 : ℚ) ^ (52 - (binary64Parts n d).2) ≤ (n : ℚ) / d ∧
    (binary64Parts n d).1 = roundNearestEven (n * 2 ^ (binary64Parts n d).2.toNat) d := by
  obtain ⟨hn1, -⟩ := floorLog2_spec n hn
  obtain ⟨-, hd2⟩ := floorLog2_spec d hd
  have hfn : floorLog2 n ≤ 52 := floorLog2Aux_le n n 52 hn53
  have hdq : (0 : ℚ) < d := by exact_mod_cast hd
  obtain ⟨e, he, he52, hB⟩ : ∃ e : Int,
      e = (if (0 ≤ (floorLog2 n : Int) - (floorLog2 d : Int) ∧
              2 ^ ((floorLog2 n : Int) - (floorLog2 d : Int)).toNat * d ≤ n) ∨
            ((floorLog2 n : Int) - (floorLog2 d : Int) < 0 ∧
              d ≤ n * 2 ^ (-((floorLog2 n : Int) - (floorLog2 d : Int))).toNat)
           then (floorLog2 n : Int) - (floorLog2 d : Int)
           else (floorLog2 n : Int) - (floorLog2 d : Int) - 1) ∧
      e ≤ 52 ∧ (2 : ℚ) ^ e ≤ (n : ℚ) / d := by
    refine ⟨_, rfl, ?_, ?_⟩
    · split_ifs <;> omega
    · split_ifs with ht
      · rcases ht with ⟨hk0, hle⟩ | ⟨hk0, hle⟩
        · have h2 : (2 : ℚ) ^ ((floorLog2 n : Int) - (floorLog2 d : Int)) =
              (2 : ℚ) ^ ((floorLog2 n : Int) - (floorLog2 d : Int)).toNat := by
            rw [← zpow_natCast, Int.toNat_of_nonneg hk0]
          rw [h2, le_div_iff₀ hdq]
          exact_mod_cast hle
        · have h2 : (2 : ℚ) ^ ((floorLog2 n : Int) - (floorLog2 d : Int)) =
              ((2 : ℚ) ^ (-((floorLog2 n : Int) - (floorLog2 d : Int))).toNat)⁻¹ := by
            rw [← zpow_natCast, Int.toNat_of_nonneg (by omega), zpow_neg, inv_inv]
          rw [h2, le_div_iff₀ hdq, inv_mul_le_iff₀ (by positivity)]
          have : ((d : Nat) : ℚ) ≤ ((n * 2 ^ (-((floorLog2 n : Int) -
              (floorLog2 d : Int))).toNat : Nat) : ℚ) := by exact_mod_cast hle
          push_cast at this
          linarith
      · have h2 : (2 : ℚ) ^ ((floorLog2 n : Int) - (floorLog2 d : Int) - 1) =
            (2 : ℚ) ^ floorLog2 n / (2 : ℚ) ^ (floorLog2 d + 1) := by
          have : (floorLog2 n : Int) - (floorLog2 d : Int) - 1 =
              (floorLog2 n : Int) - ((floorLog2 d + 1 : Nat) : Int) := by push_cast; ring
          rw [this, zpow_sub₀ (by norm_num), zpow_natCast, zpow_natCast]
        rw [h2]
        have hnq : ((2 : ℚ) ^ floorLog2 n) ≤ n := by exact_mod_cast hn1
        have hdq2 : (d : ℚ) ≤ (2 : ℚ) ^ (floorLog2 d + 1) := by exact_mod_cast hd2.le
        exact div_le_div₀ (by positivity) hnq hdq hdq2
  have hsh : (0 : Int) ≤ 52 - e := by omega
  have hparts : binary64Parts n d = (roundNearestEven (n * 2 ^ (52 - e).toNat) d, 52 - e) := by
    simp only [binary64Parts, ← he, hsh, if_true]
  rw [hparts]
  refine ⟨hsh, ?_, ?_, rfl⟩
  · have hclose := roundNearestEven_close (n * 2 ^ (52 - e).toNat) d hd
    have hcast : ((n * 2 ^ (52 - e).toNat : Nat) : ℚ) = (n : ℚ) * 2 ^ (52 - e) := by
      push_cast
      congr 1
      rw [← zpow_natCast, Int.toNat_of_nonneg hsh]
    rwa [hcast] at hclose
  · have : 52 - (52 - e) = e := by ring
    simp only [this]
    exact hB

theorem roundBinary64_close (n d : Nat) (hn53 : n < 2 ^ 53) (hd : 1 ≤ d) :
    |roundBinary64 n d - (n : ℚ) / d| ≤ (n : ℚ) / d / 2 ^ 53 := by
  by_cases hn0 : n = 0
  · subst hn0
    simp [roundBinary64]
  have hn : 1 ≤ n := Nat.one_le_iff_ne_zero.2 hn0
  obtain ⟨hsh, hm, hB, -⟩ := binary64Parts_spec n d hn hn53 hd
  rw [roundBinary64_eq_parts n d hn0]
  generalize (binary64Parts n d).1 = m at hm
  generalize (binary64Parts n d).2 = sh at hsh hm hB
  have hdq : (0 : ℚ) < d := by exact_mod_cast hd
  have hpos : (0 : ℚ) < 2 ^ (-sh) := by positivity
  have hdiff : (m : ℚ) * 2 ^ (-sh) - (n : ℚ) / d =
      ((m : ℚ) - (n : ℚ) * 2 ^ sh / d) * 2 ^ (-sh) := by
    rw [sub_mul, zpow_neg]
    congr 1
    field_simp
    ring
  rw [hdiff, abs_mul, abs_of_pos hpos]
  have h53 : (2 : ℚ) ^ (52 - sh) = 2 ^ (-sh) * 2 ^ 53 / 2 := by
    rw [zpow_sub₀ (by norm_num), zpow_neg]
    norm_num
    field_simp
    ring
  rw [h53] at hB
  rw [le_div_iff₀ (by positivity)]
  nlinarith [mul_le_mul_of_nonneg_right hm hpos.le]

theorem roundNearestEven_one (a : Nat) : roundNearestEven a 1 = a := by
  simp [roundNearestEven, Nat.mod_one]

theorem roundBinary64_exact (n : Nat) (hn53 : n < 2 ^ 53) : roundBinary64 n 1 = n := by
  by_cases hn0 : n = 0
  · subst hn0
    simp [roundBinary64]
  have hn : 1 ≤ n := Nat.one_le_iff_ne_zero.2 hn0
  obtain ⟨hsh, -, -, hm⟩ := binary64Parts_spec n 1 hn hn53 le_rfl
  rw [roundBinary64_eq_parts n 1 hn0, hm, roundNearestEven_one]
  generalize (binary64Parts n 1).2 = sh at hsh
  push_cast
  rw [← zpow_natCast, Int.toNat_of_nonneg hsh, mul_assoc, ← zpow_add₀ (by norm_num)]
  simp


theorem shl_or_byte (hi lo : Byte) :
    (hi.val <<< 8) % 2 ^ 16 ||| lo.val = hi.val * 256 + lo.val := by
  have h0 := hi.isLt
  have h1 := lo.isLt
  rw [Nat.shiftLeft_eq, Nat.mod_eq_of_lt (by omega), Nat.or_comm,
    or_eq_add_of_lt (k := 8) (by omega), Nat.add_comm]
  norm_num

theorem ReadData_run_26 {σ : Type} (svc : InverterService σ) (now : Nat) (s : σ)
    (d0 d1 d2 d3 d4 d5 d6 d7 d8 d9 d10 d11 d12
      d13 d14 d15 d16 d17 d18 d19 d20 d21 d22 d23 d24 d25 : Byte)
    (h : (svc.client.client.ReadHoldingRegisters 0 13 s).1 =
      ⟨[d0, d1, d2, d3, d4, d5, d6, d7, d8, d9, d10, d11, d12, d13, d14, d15, d16, d17,
         d18, d19, d20, d21, d22, d23, d24, d25],
       none⟩) :
    (svc.ReadData now).run s =
      .ok ((some
        { Timestamp := now,
          ConnectionStatus := d0.val * 256 + d1.val,
          DeviceStatus := d2.val * 256 + d3.val,
          ErrorCode := d4.val * 256 + d5.val,
          ActivePower := (float64.ofUint16 (d6.val * 256 + d7.val)).div ⟨100⟩,
          ReactivePower := (float64.ofUint16 (d8.val * 256 + d9.val)).div ⟨100⟩,
          PowerFactor := (float64.ofUint16 (d10.val * 256 + d11.val)).div ⟨100⟩,
          Frequency := (float64.ofUint16 (d12.val * 256 + d13.val)).div ⟨10⟩,
          Voltage := (float64.ofUint16 (d14.val * 256 + d15.val)).div ⟨10⟩,
          Current := (float64.ofUint16 (d16.val * 256 + d17.val)).div ⟨10⟩,
          Temperature := (float64.ofUint16 (d18.val * 256 + d19.val)).div ⟨10⟩,
          DailyEnergy := (float64.ofUint16 (d20.val * 256 + d21.val)).div ⟨10⟩,
          TotalEnergy := (float64.ofUint16 (d22.val * 256 + d23.val)).div ⟨10⟩,
          Efficiency := (float64.ofUint16 (d24.val * 256 + d25.val)).div ⟨100⟩ },
        none), (svc.client.client.ReadHoldingRegisters 0 13 s).2) := by
  rw [InverterService.ReadData, StateT.run_bind, Client_ReadHoldingRegisters_run, ok_bind]
  generalize svc.client.client.ReadHoldingRegisters 0 13 s = p at h ⊢
  obtain ⟨r, s1⟩ := p
  simp only at h
  subst h
  simp only [← shl_or_byte]
  rfl

theorem float64_div_val (r dv : Nat) :
    ((float64.ofUint16 r).div ⟨dv⟩).val =
      roundBinary64 ((r : ℚ) / dv).num.natAbs ((r : ℚ) / dv).den := rfl

theorem quotient_parts (r dv : Nat) (hr : r < 65536) (hdv : 0 < dv) :
    (((r : ℚ) / dv).num.natAbs : ℚ) / ((r : ℚ) / dv).den = (r : ℚ) / dv ∧
    ((r : ℚ) / dv).num.natAbs < 2 ^ 53 ∧ 1 ≤ ((r : ℚ) / dv).den := by
  have hq0 : (0 : ℚ) ≤ (r : ℚ) / dv := by positivity
  have hnum : (0 : Int) ≤ ((r : ℚ) / dv).num := Rat.num_nonneg.2 hq0
  have hcast : ((((r : ℚ) / dv).num.natAbs : Nat) : ℚ) = (((r : ℚ) / dv).num : ℚ) := by
    rw [Nat.cast_natAbs, abs_of_nonneg hnum]
  refine ⟨?_, ?_, ((r : ℚ) / dv).den_pos⟩
  · rw [hcast]
    exact Rat.num_div_den _
  · have hdvd : ((r : ℚ) / dv).num ∣ (r : Int) := by
      have h := Rat.num_dvd (r : Int) (b := (dv : Int)) (by exact_mod_cast hdv.ne')
      rw [Rat.divInt_eq_div] at h
      simp only [Int.cast_natCast] at h
      exact h
    by_cases hr0 : r = 0
    · subst hr0
      simp
    · have hle : ((r : ℚ) / dv).num.natAbs ≤ r := by
        have := Int.natAbs_dvd_natAbs.2 hdvd
        exact Nat.le_of_dvd (Nat.pos_of_ne_zero hr0) (by simpa using this)
      omega

theorem scale_close (r dv : Nat) (hr : r < 65536) (hdv : 0 < dv) :
    |((float64.ofUint16 r).div ⟨dv⟩).val - (r : ℚ) / dv| ≤ (r : ℚ) / dv / 2 ^ 53 := by
  obtain ⟨hq, hn, hd⟩ := quotient_parts r dv hr hdv
  have h := roundBinary64_close _ _ hn hd
  rw [hq] at h
  rw [float64_div_val]
  exact h

theorem scale_exact (k dv : Nat) (hr : dv * k < 65536) (hdv : 0 < dv) :
    (float64.ofUint16 (dv * k)).div ⟨dv⟩ = ⟨k⟩ := by
  have hq : ((dv * k : Nat) : ℚ) / dv = (k : ℚ) := by
    have : (dv : ℚ) ≠ 0 := by exact_mod_cast hdv.ne'
    push_cast
    field_simp
  have hk : k < 2 ^ 53 := by
    have : k ≤ dv * k := Nat.le_mul_of_pos_left k hdv
    omega
  have hval : ((float64.ofUint16 (dv * k)).div ⟨dv⟩).val = k := by
    rw [float64_div_val, hq]
    simp only [Rat.num_natCast, Int.natAbs_ofNat, Rat.den_natCast]
    exact roundBinary64_exact k hk
  cases hx : (float64.ofUint16 (dv * k)).div ⟨dv⟩ with
  | mk v =>
    rw [hx] at hval
    simp only at hval
    rw [hval]

/-- C11: for every response of 26 bytes `d` without error to the read (address 0,
quantity 13), `ReadData` returns a nil error and a snapshot in which the field of
register `k` is computed from `w = d[2k] * 256 + d[2k+1]` alone: the status
fields are `w`, and each measured field is the `float64` quotient of `w` by its
scale, a number within a relative error `2^-53` of `w / 10` (of `w / 100`) and
equal to it when the scale divides `w`. A response that starts
`0x00 0x01 0x00 0x02` gives `ConnectionStatus = 1` and `DeviceStatus = 2`. -/
theorem ReadData_register_mapping {σ : Type} (svc : InverterService σ) (now : Nat) (s : σ)
    (d0 d1 d2 d3 d4 d5 d6 d7 d8 d9 d10 d11 d12
      d13 d14 d15 d16 d17 d18 d19 d20 d21 d22 d23 d24 d25 : Byte)
    (h : (svc.client.client.ReadHoldingRegisters 0 13 s).1 =
      ⟨[d0, d1, d2, d3, d4, d5, d6, d7, d8, d9, d10, d11, d12, d13, d14, d15, d16, d17,
         d18, d19, d20, d21, d22, d23, d24, d25],
       none⟩) :
    ∃ data, (svc.ReadData now).run s =
        .ok ((some data, none), (svc.client.client.ReadHoldingRegisters 0 13 s).2) ∧
      data =
      { Timestamp := now,
        ConnectionStatus := d0.val * 256 + d1.val,
        DeviceStatus := d2.val * 256 + d3.val,
        ErrorCode := d4.val * 256 + d5.val,
        ActivePower := (float64.ofUint16 (d6.val * 256 + d7.val)).div ⟨100⟩,
        ReactivePower := (float64.ofUint16 (d8.val * 256 + d9.val)).div ⟨100⟩,
        PowerFactor := (float64.ofUint16 (d10.val * 256 + d11.val)).div ⟨100⟩,
        Frequency := (float64.ofUint16 (d12.val * 256 + d13.val)).div ⟨10⟩,
        Voltage := (float64.ofUint16 (d14.val * 256 + d15.val)).div ⟨10⟩,
        Current := (float64.ofUint16 (d16.val * 256 + d17.val)).div ⟨10⟩,
        Temperature := (float64.ofUint16 (d18.val * 256 + d19.val)).div ⟨10⟩,
        DailyEnergy := (float64.ofUint16 (d20.val * 256 + d21.val)).div ⟨10⟩,
        TotalEnergy := (float64.ofUint16 (d22.val * 256 + d23.val)).div ⟨10⟩,
        Efficiency := (float64.ofUint16 (d24.val * 256 + d25.val)).div ⟨100⟩ } ∧
      (d0 = 0x00 → d1 = 0x01 → d2 = 0x00 → d3 = 0x02 →
        data.ConnectionStatus = 1 ∧ data.DeviceStatus = 2) ∧
      |data.ActivePower.val - ((d6.val * 256 + d7.val : Nat) : ℚ) / 100| ≤
        ((d6.val * 256 + d7.val : Nat) : ℚ) / 100 / 2 ^ 53 ∧
      |data.ReactivePower.val - ((d8.val * 256 + d9.val : Nat) : ℚ) / 100| ≤
        ((d8.val * 256 + d9.val : Nat) : ℚ) / 100 / 2 ^ 53 ∧
      |data.PowerFactor.val - ((d10.val * 256 + d11.val : Nat) : ℚ) / 100| ≤
        ((d10.val * 256 + d11.val : Nat) : ℚ) / 100 / 2 ^ 53 ∧
      |data.Frequency.val - ((d12.val * 256 + d13.val : Nat) : ℚ) / 10| ≤
        ((d12.val * 256 + d13.val : Nat) : ℚ) / 10 / 2 ^ 53 ∧
      |data.Voltage.val - ((d14.val * 256 + d15.val : Nat) : ℚ) / 10| ≤
        ((d14.val * 256 + d15.val : Nat) : ℚ) / 10 / 2 ^ 53 ∧
      |data.Current.val - ((d16.val * 256 + d17.val : Nat) : ℚ) / 10| ≤
        ((d16.val * 256 + d17.val : Nat) : ℚ) / 10 / 2 ^ 53 ∧
      |data.Temperature.val - ((d18.val * 256 + d19.val : Nat) : ℚ) / 10| ≤
        ((d18.val * 256 + d19.val : Nat) : ℚ) / 10 / 2 ^ 53 ∧
      |data.DailyEnergy.val - ((d20.val * 256 + d21.val : Nat) : ℚ) / 10| ≤
        ((d20.val * 256 + d21.val : Nat) : ℚ) / 10 / 2 ^ 53 ∧
      |data.TotalEnergy.val - ((d22.val * 256 + d23.val : Nat) : ℚ) / 10| ≤
        ((d22.val * 256 + d23.val : Nat) : ℚ) / 10 / 2 ^ 53 ∧
      |data.Efficiency.val - ((d24.val * 256 + d25.val : Nat) : ℚ) / 100| ≤
        ((d24.val * 256 + d25.val : Nat) : ℚ) / 100 / 2 ^ 53 ∧
      (∀ k : Nat,
        (d6.val * 256 + d7.val = 100 * k → data.ActivePower = ⟨k⟩) ∧
        (d8.val * 256 + d9.val = 100 * k → data.ReactivePower = ⟨k⟩) ∧
        (d10.val * 256 + d11.val = 100 * k → data.PowerFactor = ⟨k⟩) ∧
        (d12.val * 256 + d13.val = 10 * k → data.Frequency = ⟨k⟩) ∧
        (d14.val * 256 + d15.val = 10 * k → data.Voltage = ⟨k⟩) ∧
        (d16.val * 256 + d17.val = 10 * k → data.Current = ⟨k⟩) ∧
        (d18.val * 256 + d19.val = 10 * k → data.Temperature = ⟨k⟩) ∧
        (d20.val * 256 + d21.val = 10 * k → data.DailyEnergy = ⟨k⟩) ∧
        (d22.val * 256 + d23.val = 10 * k → data.TotalEnergy = ⟨k⟩) ∧
        (d24.val * 256 + d25.val = 100 * k → data.Efficiency = ⟨k⟩)) := by
  have hw : ∀ hi lo : Byte, hi.val * 256 + lo.val < 65536 := by
    intro hi lo
    have h0 := hi.isLt
    have h1 := lo.isLt
    omega
  have hex10 : ∀ w k : Nat, w < 65536 → w = 10 * k →
      (float64.ofUint16 w).div ⟨10⟩ = ⟨k⟩ := by
    intro w k hlt hk
    subst hk
    simpa using scale_exact k 10 hlt (by norm_num)
  have hex100 : ∀ w k : Nat, w < 65536 → w = 100 * k →
      (float64.ofUint16 w).div ⟨100⟩ = ⟨k⟩ := by
    intro w k hlt hk
    subst hk
    simpa using scale_exact k 100 hlt (by norm_num)
  refine ⟨_, ReadData_run_26 svc now s d0 d1 d2 d3 d4 d5 d6 d7 d8 d9 d10 d11 d12
      d13 d14 d15 d16 d17 d18 d19 d20 d21 d22 d23 d24 d25 h, rfl, ?_,
    by simpa using scale_close (d6.val * 256 + d7.val) 100 (hw d6 d7) (by norm_num),
    by simpa using scale_close (d8.val * 256 + d9.val) 100 (hw d8 d9) (by norm_num),
    by simpa using scale_close (d10.val * 256 + d11.val) 100 (hw d10 d11) (by norm_num),
    by simpa using scale_close (d12.val * 256 + d13.val) 10 (hw d12 d13) (by norm_num),
    by simpa using scale_close (d14.val * 256 + d15.val) 10 (hw d14 d15) (by norm_num),
    by simpa using scale_close (d16.val * 256 + d17.val) 10 (hw d16 d17) (by norm_num),
    by simpa using scale_close (d18.val * 256 + d19.val) 10 (hw d18 d19) (by norm_num),
    by simpa using scale_close (d20.val * 256 + d21.val) 10 (hw d20 d21) (by norm_num),
    by simpa using scale_close (d22.val * 256 + d23.val) 10 (hw d22 d23) (by norm_num),
    by simpa using scale_close (d24.val * 256 + d25.val) 100 (hw d24 d25) (by norm_num), ?_⟩
  · rintro rfl rfl rfl rfl
    exact ⟨rfl, rfl⟩
  · intro k
    exact ⟨hex100 _ k (hw d6 d7), hex100 _ k (hw d8 d9), hex100 _ k (hw d10 d11), hex10 _ k (hw d12
      d13), hex10 _ k (hw d14 d15), hex10 _ k (hw d16 d17), hex10 _ k (hw d18 d19), hex10 _ k
      (hw d20 d21), hex10 _ k (hw d22 d23), hex100 _ k (hw d24 d25)⟩

theorem ReadData_register_mapping_witness :
    ∃ data, (InverterService.ReadData
        (InverterService.ofFun fun _ _ => ⟨scaledRegisters, none⟩) 7).run () =
      .ok ((some data, none), ()) ∧
      data.Timestamp = 7 ∧ data.ConnectionStatus = 1 ∧ data.DeviceStatus = 2 ∧
      data.ErrorCode = 0 ∧ data.ActivePower = ⟨5⟩ ∧ data.ReactivePower = ⟨2⟩ ∧
      |data.PowerFactor.val - 95 / 100| ≤ 95 / 100 / 2 ^ 53 ∧
      data.Frequency = ⟨50⟩ ∧ data.Voltage = ⟨240⟩ ∧ data.Current = ⟨20⟩ ∧
      data.Temperature = ⟨40⟩ ∧ data.DailyEnergy = ⟨50⟩ ∧ data.TotalEnergy = ⟨250⟩ ∧
      data.Efficiency = ⟨100⟩ := by
  obtain ⟨data, hrun, hdata, hstatus, -, -, hPF, -, -, -, -, -, -, -, hexact⟩ :=
    ReadData_register_mapping
      (InverterService.ofFun fun _ _ => ⟨scaledRegisters, none⟩) 7 ()
      0x00 0x01 0x00 0x02 0x00 0x00 0x01 0xF4 0x00 0xC8 0x00 0x5F 0x01 0xF4
      0x09 0x60 0x00 0xC8 0x01 0x90 0x01 0xF4 0x09 0xC4 0x27 0x10 rfl
  obtain ⟨hAP, -, -, -, -, -, -, -, -, -⟩ := hexact 5
  obtain ⟨-, hRP, -, -, -, -, -, -, -, -⟩ := hexact 2
  obtain ⟨-, -, -, hF, -, -, -, hDE, -, -⟩ := hexact 50
  obtain ⟨-, -, -, -, hV, -, -, -, -, -⟩ := hexact 240
  obtain ⟨-, -, -, -, -, hC, -, -, -, -⟩ := hexact 20
  obtain ⟨-, -, -, -, -, -, hT, -, -, -⟩ := hexact 40
  obtain ⟨-, -, -, -, -, -, -, -, hTE, -⟩ := hexact 250
  obtain ⟨-, -, -, -, -, -, -, -, -, hE⟩ := hexact 100
  obtain ⟨hCS, hDS⟩ := hstatus rfl rfl rfl rfl
  refine ⟨data, hrun, ?_, hCS, hDS, ?_, hAP rfl, hRP rfl, ?_, hF rfl, hV rfl, hC rfl,
    hT rfl, hDE rfl, hTE rfl, hE rfl⟩
  · rw [hdata]
  · rw [hdata]
    rfl
  · have h95 : (0x00 : Byte).val * 256 + (0x5F : Byte).val = 95 := rfl
    rw [h95, Nat.cast_ofNat] at hPF
    exact hPF

/-- C12: in the snapshot of `ReadData` the three status fields are the raw
register values, `Frequency`, `Voltage`, `Current`, `Temperature`, `DailyEnergy`
and `TotalEnergy` are the `float64` quotient of the raw value by 10, and
`ActivePower`, `ReactivePower`, `PowerFactor` and `Efficiency` the quotient by
100. For every raw 16-bit value `r` either quotient is within a relative error
`2^-53` of `r / 10` (of `r / 100`), and is exactly that number when 10 (100)
divides `r`: a raw 500 gives 50 in a field scaled by 0.1, not 500. -/
theorem ReadData_scale_factors {σ : Type} (svc : InverterService σ) (now : Nat) (s : σ)
    (d0 d1 d2 d3 d4 d5 d6 d7 d8 d9 d10 d11 d12
      d13 d14 d15 d16 d17 d18 d19 d20 d21 d22 d23 d24 d25 : Byte)
    (h : (svc.client.client.ReadHoldingRegisters 0 13 s).1 =
      ⟨[d0, d1, d2, d3, d4, d5, d6, d7, d8, d9, d10, d11, d12, d13, d14, d15, d16, d17,
         d18, d19, d20, d21, d22, d23, d24, d25],
       none⟩) :
    (∃ data s', (svc.ReadData now).run s = .ok ((some data, none), s') ∧
      data.ConnectionStatus = d0.val * 256 + d1.val ∧
      data.DeviceStatus = d2.val * 256 + d3.val ∧
      data.ErrorCode = d4.val * 256 + d5.val ∧
      data.ActivePower = (float64.ofUint16 (d6.val * 256 + d7.val)).div ⟨100⟩ ∧
      data.ReactivePower = (float64.ofUint16 (d8.val * 256 + d9.val)).div ⟨100⟩ ∧
      data.PowerFactor = (float64.ofUint16 (d10.val * 256 + d11.val)).div ⟨100⟩ ∧
      data.Frequency = (float64.ofUint16 (d12.val * 256 + d13.val)).div ⟨10⟩ ∧
      data.Voltage = (float64.ofUint16 (d14.val * 256 + d15.val)).div ⟨10⟩ ∧
      data.Current = (float64.ofUint16 (d16.val * 256 + d17.val)).div ⟨10⟩ ∧
      data.Temperature = (float64.ofUint16 (d18.val * 256 + d19.val)).div ⟨10⟩ ∧
      data.DailyEnergy = (float64.ofUint16 (d20.val * 256 + d21.val)).div ⟨10⟩ ∧
      data.TotalEnergy = (float64.ofUint16 (d22.val * 256 + d23.val)).div ⟨10⟩ ∧
      data.Efficiency = (float64.ofUint16 (d24.val * 256 + d25.val)).div ⟨100⟩) ∧
    (∀ r : Nat, r < 65536 →
      |((float64.ofUint16 r).div ⟨10⟩).val - (r : ℚ) / 10| ≤ (r : ℚ) / 10 / 2 ^ 53 ∧
      |((float64.ofUint16 r).div ⟨100⟩).val - (r : ℚ) / 100| ≤ (r : ℚ) / 100 / 2 ^ 53) ∧
    (∀ k : Nat, 10 * k < 65536 → (float64.ofUint16 (10 * k)).div ⟨10⟩ = ⟨k⟩) ∧
    (∀ k : Nat, 100 * k < 65536 → (float64.ofUint16 (100 * k)).div ⟨100⟩ = ⟨k⟩) ∧
    (float64.ofUint16 500).div ⟨10⟩ = ⟨50⟩ ∧
    (float64.ofUint16 500).div ⟨10⟩ ≠ ⟨500⟩ := by
  have h500 : (float64.ofUint16 500).div ⟨10⟩ = ⟨50⟩ := by
    have := scale_exact 50 10 (by norm_num) (by norm_num)
    simpa using this
  refine ⟨⟨_, _, ReadData_run_26 svc now s d0 d1 d2 d3 d4 d5 d6 d7 d8 d9 d10 d11 d12
      d13 d14 d15 d16 d17 d18 d19 d20 d21 d22 d23 d24 d25 h,
    rfl, rfl, rfl, rfl, rfl, rfl, rfl, rfl, rfl, rfl, rfl, rfl, rfl⟩, ?_, ?_, ?_, h500, ?_⟩
  · intro r hr
    have h10 := scale_close r 10 hr (by norm_num)
    have h100 := scale_close r 100 hr (by norm_num)
    simp only [Nat.cast_ofNat] at h10 h100
    exact ⟨h10, h100⟩
  · intro k hk
    have h := scale_exact k 10 hk (by norm_num)
    simp only [Nat.cast_ofNat] at h
    exact h
  · intro k hk
    have h := scale_exact k 100 hk (by norm_num)
    simp only [Nat.cast_ofNat] at h
    exact h
  rw [h500]
  intro hne
  injection hne with hne
  norm_num at hne

theorem ReadData_scale_factors_witness :
    ∃ data s', (InverterService.ReadData
        (InverterService.ofFun fun _ _ => ⟨simulatorRegisters, none⟩) 7).run () =
      .ok ((some data, none), s') ∧
      data.Frequency = (float64.ofUint16 50).div ⟨10⟩ ∧
      data.Efficiency = (float64.ofUint16 100).div ⟨100⟩ := by
  obtain ⟨⟨data, s', hrun, -, -, -, -, -, -, hF, -, -, -, -, -, hE⟩, -⟩ :=
    ReadData_scale_factors
      (InverterService.ofFun fun _ _ => ⟨simulatorRegisters, none⟩) 7 ()
      0x00 0x01 0x00 0x01 0x00 0x00 0x00 0x05 0x00 0x02 0x00 0x96 0x00 0x32
      0x00 0xF0 0x00 0x14 0x00 0x28 0x00 0x32 0x00 0xFA 0x00 0x64 rfl
  exact ⟨data, s', hrun, hF, hE⟩

/-- C19, at the simulator's sample block: `ReadData` divides the raw registers by
their scale, so it returns `Frequency` 5 (documented 50 Hz), `Voltage` 24
(240 V), `Current` 2 (20 A), `Temperature` 4 (40), `DailyEnergy` 5 (50 kWh),
`TotalEnergy` 25 (250 kWh), `Efficiency` 1 (100 %), `ActivePower` about 0.05
(5 kW), `ReactivePower` about 0.02 (2 kVar) and `PowerFactor` about 1.5 (0.95);
only the three status fields have the documented values 1, 1, 0. -/
theorem ReadData_on_simulator_block :
    ∃ data, (InverterService.ReadData
        (InverterService.ofFun fun _ _ => ⟨simulatorRegisters, none⟩) 0).run () =
      .ok ((some data, none), ()) ∧
      data.ConnectionStatus = 1 ∧ data.DeviceStatus = 1 ∧ data.ErrorCode = 0 ∧
      data.Frequency = ⟨5⟩ ∧ data.Voltage = ⟨24⟩ ∧ data.Current = ⟨2⟩ ∧
      data.Temperature = ⟨4⟩ ∧ data.DailyEnergy = ⟨5⟩ ∧ data.TotalEnergy = ⟨25⟩ ∧
      data.Efficiency = ⟨1⟩ ∧
      |data.ActivePower.val - 5 / 100| ≤ 5 / 100 / 2 ^ 53 ∧
      |data.ReactivePower.val - 2 / 100| ≤ 2 / 100 / 2 ^ 53 ∧
      |data.PowerFactor.val - 150 / 100| ≤ 150 / 100 / 2 ^ 53 := by
  have hrun := ReadData_run_26
    (InverterService.ofFun fun _ _ => ⟨simulatorRegisters, none⟩) 0 ()
    0x00 0x01 0x00 0x01 0x00 0x00 0x00 0x05 0x00 0x02 0x00 0x96 0x00 0x32
    0x00 0xF0 0x00 0x14 0x00 0x28 0x00 0x32 0x00 0xFA 0x00 0x64 rfl
  have e5 : (float64.ofUint16 50).div ⟨10⟩ = ⟨5⟩ := by
    simpa using scale_exact 5 10 (by norm_num) (by norm_num)
  have e24 : (float64.ofUint16 240).div ⟨10⟩ = ⟨24⟩ := by
    simpa using scale_exact 24 10 (by norm_num) (by norm_num)
  have e2 : (float64.ofUint16 20).div ⟨10⟩ = ⟨2⟩ := by
    simpa using scale_exact 2 10 (by norm_num) (by norm_num)
  have e4 : (float64.ofUint16 40).div ⟨10⟩ = ⟨4⟩ := by
    simpa using scale_exact 4 10 (by norm_num) (by norm_num)
  have e25 : (float64.ofUint16 250).div ⟨10⟩ = ⟨25⟩ := by
    simpa using scale_exact 25 10 (by norm_num) (by norm_num)
  have e1 : (float64.ofUint16 100).div ⟨100⟩ = ⟨1⟩ := by
    simpa using scale_exact 1 100 (by norm_num) (by norm_num)
  have c5 : |((float64.ofUint16 5).div ⟨100⟩).val - 5 / 100| ≤ 5 / 100 / 2 ^ 53 := by
    simpa using scale_close 5 100 (by norm_num) (by norm_num)
  have c2 : |((float64.ofUint16 2).div ⟨100⟩).val - 2 / 100| ≤ 2 / 100 / 2 ^ 53 := by
    simpa using scale_close 2 100 (by norm_num) (by norm_num)
  have c150 : |((float64.ofUint16 150).div ⟨100⟩).val - 150 / 100| ≤ 150 / 100 / 2 ^ 53 := by
    simpa using scale_close 150 100 (by norm_num) (by norm_num)
  exact ⟨_, hrun, rfl, rfl, rfl, e5, e24, e2, e4, e5, e25, e1, c5, c2, c150⟩

/-! ## The requests of the extended snapshot: claims C13, C16 and C18 -/

theorem pm2120Requests_eq :
    pm2120Requests = PMField.all.map (fun f => (f.addr, f.quantity)) := by
  decide

theorem logged_transport {σ : Type} (client : RTUClient σ) (slaveID address quantity : Nat)
    (p : List (Nat × Nat × Nat) × σ) :
    client.logged.transport slaveID address quantity p =
      ((client.transport slaveID address quantity p.2).1,
       (p.1 ++ [(slaveID, address, quantity)],
        (client.transport slaveID address quantity p.2).2)) := rfl

theorem ReadPM2120Data_logged {σ : Type} (client : RTUClient σ) (slaveID : Nat) (s : σ) :
    ∃ out s', (ReadPM2120Data client slaveID).run s = .ok (out, s') ∧
    (ReadPM2120Data client.logged slaveID).run ([], s) =
      .ok (out, (pm2120Requests.map (fun r => (slaveID, r.1, r.2)), s')) := by
  simp only [ReadPM2120Data, StateT.run_bind, readAndDecodeFloat32_run, readAndDecodeInt64_run,
    ok_bind, StateT.run_pure, logged_transport, List.nil_append, List.cons_append,
    pm2120Requests, List.map_cons, List.map_nil]
  exact ⟨_, _, rfl, rfl⟩

theorem Uint16_width (b : List Byte) :
    ((∃ v, BigEndian.Uint16 b = .ok v) ↔ 2 ≤ b.length) ∧
    BigEndian.Uint16 b = BigEndian.Uint16 (b.take 2) := by
  match b with
  | [] => exact ⟨by simp [BigEndian.Uint16], rfl⟩
  | [_] => exact ⟨by simp [BigEndian.Uint16], rfl⟩
  | _ :: _ :: _ => exact ⟨by simp [BigEndian.Uint16], rfl⟩

theorem Uint32_width (b : List Byte) :
    ((∃ v, BigEndian.Uint32 b = .ok v) ↔ 4 ≤ b.length) ∧
    BigEndian.Uint32 b = BigEndian.Uint32 (b.take 4) := by
  match b with
  | [] => exact ⟨by simp [BigEndian.Uint32], rfl⟩
  | [_] => exact ⟨by simp [BigEndian.Uint32], rfl⟩
  | [_, _] => exact ⟨by simp [BigEndian.Uint32], rfl⟩
  | [_, _, _] => exact ⟨by simp [BigEndian.Uint32], rfl⟩
  | _ :: _ :: _ :: _ :: _ => exact ⟨by simp [BigEndian.Uint32], rfl⟩

theorem Uint64_width (b : List Byte) :
    ((∃ v, BigEndian.Uint64 b = .ok v) ↔ 8 ≤ b.length) ∧
    BigEndian.Uint64 b = BigEndian.Uint64 (b.take 8) := by
  match b with
  | [] => exact ⟨by simp [BigEndian.Uint64], rfl⟩
  | [_] => exact ⟨by simp [BigEndian.Uint64], rfl⟩
  | [_, _] => exact ⟨by simp [BigEndian.Uint64], rfl⟩
  | [_, _, _] => exact ⟨by simp [BigEndian.Uint64], rfl⟩
  | [_, _, _, _] => exact ⟨by simp [BigEndian.Uint64], rfl⟩
  | [_, _, _, _, _] => exact ⟨by simp [BigEndian.Uint64], rfl⟩
  | [_, _, _, _, _, _] => exact ⟨by simp [BigEndian.Uint64], rfl⟩
  | [_, _, _, _, _, _, _] => exact ⟨by simp [BigEndian.Uint64], rfl⟩
  | _ :: _ :: _ :: _ :: _ :: _ :: _ :: _ :: _ => exact ⟨by simp [BigEndian.Uint64], rfl⟩

/-- C13: for every transport, whatever it answers, one call of `ReadPM2120Data`
issues the same fixed list of 44 requests (address, quantity), one per read field
in the order of the table; recording the requests does not change the result. -/
theorem ReadPM2120Data_fixed_request_sequence {σ : Type} (client : RTUClient σ)
    (slaveID : Nat) (s : σ) :
    ∃ out s', (ReadPM2120Data client slaveID).run s = .ok (out, s') ∧
      (ReadPM2120Data client.logged slaveID).run ([], s) =
        .ok (out, (pm2120Requests.map (fun r => (slaveID, r.1, r.2)), s')) ∧
      pm2120Requests.length = 44 ∧
      pm2120Requests = PMField.all.map (fun f => (f.addr, f.quantity)) := by
  obtain ⟨out, s', h1, h2⟩ := ReadPM2120Data_logged client slaveID s
  exact ⟨out, s', h1, h2, rfl, pm2120Requests_eq⟩

/-- C16: for every transport, `ReadPM2120Data` issues no read at the address
`addrCurrentN` (3005), leaves the field `CurrentN` nil, and accumulates the errors
of the 44 read fields only, none of which is named `CurrentN`. -/
theorem CurrentN_never_read {σ : Type} (client : RTUClient σ) (slaveID : Nat) (s : σ) :
    ∃ data err log s', (ReadPM2120Data client.logged slaveID).run ([], s) =
        .ok ((data, err), (log, s')) ∧
      (∀ req ∈ log, req.2.1 ≠ addrCurrentN) ∧
      data.CurrentN = none ∧
      err = (PMField.all.map fun f => f.error (responseTo client slaveID s f)).foldl
        accumulate none ∧
      (∀ f : PMField, f.name ≠ "CurrentN" ∧ f.addr ≠ addrCurrentN) ∧
      addrCurrentN = 3005 := by
  obtain ⟨out, s', h1, h2⟩ := ReadPM2120Data_logged client slaveID s
  obtain ⟨data, hrun, hN, -⟩ := ReadPM2120Data_run client slaveID s
  rw [h1] at hrun
  injection hrun with hrun
  injection hrun with hout hs
  subst hout
  refine ⟨data, _, _, s', h2, ?_, hN, rfl, ?_, rfl⟩
  · intro req hreq
    obtain ⟨r, hr, rfl⟩ := List.mem_map.1 hreq
    have hall : ∀ r ∈ pm2120Requests, r.1 ≠ addrCurrentN := by decide
    exact hall r hr
  · intro f
    cases f <;> exact ⟨by decide, by decide⟩

/-- C18: each helper issues one request whose quantity is the word count of its
encoding (1, 2, 4) and returns a value exactly when the response has no error
and `2 * quantity` bytes (2, 4, 8); each decoder succeeds exactly on at least
that many bytes and reads only that many; in `ReadPM2120Data` every request has
quantity 2 at a `float32` address and 4 at an energy address. -/
theorem word_count_matches_encoding {σ : Type} (client : RTUClient σ)
    (slaveID addr : Nat) (fieldName : String) (s : σ) :
    (∃ out s', (readAndDecodeUint16 client.logged slaveID addr fieldName).run ([], s) =
        .ok (out, ([(slaveID, addr, 1)], s')) ∧
      (out.1.isSome ↔ (client.transport slaveID addr 1 s).1.okFor 1)) ∧
    (∃ out s', (readAndDecodeFloat32 client.logged slaveID addr fieldName).run ([], s) =
        .ok (out, ([(slaveID, addr, 2)], s')) ∧
      (out.1.isSome ↔ (client.transport slaveID addr 2 s).1.okFor 2)) ∧
    (∃ out s', (readAndDecodeInt64 client.logged slaveID addr fieldName).run ([], s) =
        .ok (out, ([(slaveID, addr, 4)], s')) ∧
      (out.1.isSome ↔ (client.transport slaveID addr 4 s).1.okFor 4)) ∧
    (∀ b : List Byte, ((∃ v, bytesToUint16 b = .ok v) ↔ 2 * 1 ≤ b.length) ∧
      bytesToUint16 b = bytesToUint16 (b.take (2 * 1))) ∧
    (∀ b : List Byte, ((∃ v, bytesToFloat32 b = .ok v) ↔ 2 * 2 ≤ b.length) ∧
      bytesToFloat32 b = bytesToFloat32 (b.take (2 * 2))) ∧
    (∀ b : List Byte, ((∃ v, bytesToInt64 b = .ok v) ↔ 2 * 4 ≤ b.length) ∧
      bytesToInt64 b = bytesToInt64 (b.take (2 * 4))) ∧
    (∃ out s', (ReadPM2120Data client.logged slaveID).run ([], s) =
      .ok (out, (PMField.all.map
        (fun f => (slaveID, f.addr, if f.isInt64 then 4 else 2)), s'))) := by
  refine ⟨?_, ?_, ?_, ?_, ?_, ?_, ?_⟩
  · refine ⟨_, _, readAndDecodeUint16_run client.logged slaveID addr fieldName ([], s), ?_⟩
    show (uint16Outcome fieldName (client.transport slaveID addr 1 s).1).1.isSome ↔ _
    rcases uint16Outcome_cases fieldName (client.transport slaveID addr 1 s).1 with
      ⟨hok, v, -, hout⟩ | ⟨hnot, hout⟩
    · simp [hout, hok]
    · simp [hout, hnot]
  · refine ⟨_, _, readAndDecodeFloat32_run client.logged slaveID addr fieldName ([], s), ?_⟩
    show (float32Outcome fieldName (client.transport slaveID addr 2 s).1).1.isSome ↔ _
    rcases float32Outcome_cases fieldName (client.transport slaveID addr 2 s).1 with
      ⟨hok, v, -, hout⟩ | ⟨hnot, hout⟩
    · simp [hout, hok]
    · simp [hout, hnot]
  · refine ⟨_, _, readAndDecodeInt64_run client.logged slaveID addr fieldName ([], s), ?_⟩
    show (int64Outcome fieldName (client.transport slaveID addr 4 s).1).1.isSome ↔ _
    rcases int64Outcome_cases fieldName (client.transport slaveID addr 4 s).1 with
      ⟨hok, v, -, hout⟩ | ⟨hnot, hout⟩
    · simp [hout, hok]
    · simp [hout, hnot]
  · intro b
    exact Uint16_width b
  · intro b
    obtain ⟨h1, h2⟩ := Uint32_width b
    refine ⟨?_, ?_⟩
    · rw [← h1]
      unfold bytesToFloat32
      cases BigEndian.Uint32 b <;> simp [bind, Except.bind, pure, Except.pure]
    · unfold bytesToFloat32
      rw [h2]
  · intro b
    obtain ⟨h1, h2⟩ := Uint64_width b
    refine ⟨?_, ?_⟩
    · rw [← h1]
      unfold bytesToInt64
      cases BigEndian.Uint64 b <;> simp [bind, Except.bind, pure, Except.pure]
    · unfold bytesToInt64
      rw [h2]
  · obtain ⟨out, s', -, h2⟩ := ReadPM2120Data_logged client slaveID s
    refine ⟨out, s', ?_⟩
    rw [h2, pm2120Requests_eq, List.map_map]
    rfl

/-! ## The accumulated error and the register map: claims C14 and C17 -/

theorem fmtV_accumulate_some (acc : Option GoError) (e : GoError) :
    fmtV (accumulate acc (some e)) = fmtV acc ++ "; " ++ e.Error := rfl

theorem fmtV_foldl_accumulate_contains (es : List (Option GoError)) (acc : Option GoError)
    (t pre post : String) (h : fmtV acc = pre ++ t ++ post) :
    ∃ pre' post', fmtV (es.foldl accumulate acc) = pre' ++ t ++ post' := by
  induction es generalizing acc pre post with
  | nil => exact ⟨pre, post, h⟩
  | cons x es ih =>
    cases x with
    | none => exact ih acc pre post h
    | some e =>
      refine ih (accumulate acc (some e)) pre (post ++ "; " ++ e.Error) ?_
      rw [fmtV_accumulate_some, h]
      simp only [String.append_assoc]

theorem fmtV_foldl_accumulate_entry (es : List (Option GoError)) (acc : Option GoError)
    (e : GoError) (he : some e ∈ es) :
    ∃ pre post, fmtV (es.foldl accumulate acc) = pre ++ e.Error ++ post := by
  induction es generalizing acc with
  | nil => exact absurd he (List.not_mem_nil _)
  | cons x es ih =>
    rcases List.mem_cons.1 he with hx | hmem
    · subst hx
      exact fmtV_foldl_accumulate_contains es _ e.Error (fmtV acc ++ "; ") "" (by
        rw [fmtV_accumulate_some, String.append_empty])
    · exact ih _ hmem

/-- C14, amended: for every transport, the error returned by `ReadPM2120Data` is
accumulated from the errors of the failed reads alone, in the order of the
reads, and for each failed field its text contains the entry
`đọc <name> lỗi: <cause>`, the cause being the text of the underlying transport
error or the fixed text of a length mismatch. -/
theorem accumulated_error_entries {σ : Type} (client : RTUClient σ) (slaveID : Nat) (s : σ) :
    ∃ data err s', (ReadPM2120Data client slaveID).run s = .ok ((data, err), s') ∧
      err = ((PMField.all.filter fun f =>
                decide (¬ (responseTo client slaveID s f).okFor f.quantity)).map
              fun f => f.error (responseTo client slaveID s f)).foldl accumulate none ∧
      ∀ f : PMField, ¬ (responseTo client slaveID s f).okFor f.quantity →
        ∃ e pre post, err = some e ∧
          e.Error = pre ++ ("đọc " ++ f.name ++ " lỗi: "
            ++ failureCause (responseTo client slaveID s f)) ++ post := by
  obtain ⟨data, hrun, -, -⟩ := ReadPM2120Data_run client slaveID s
  refine ⟨data, _, _, hrun, foldl_accumulate_filter _ _ (fun f => by
      rw [decide_eq_true_iff, Ne, error_eq_none_iff]) _ _, ?_⟩
  intro f hf
  obtain ⟨e, he, hmsg⟩ := error_of_not_ok f _ hf
  have hmem : some e ∈ PMField.all.map fun f => f.error (responseTo client slaveID s f) :=
    List.mem_map.2 ⟨f, PMField.mem_all f, he⟩
  obtain ⟨pre, post, hpp⟩ := fmtV_foldl_accumulate_entry _ none e hmem
  rw [hmsg] at hpp
  cases hacc : (PMField.all.map fun f => f.error (responseTo client slaveID s f)).foldl
      accumulate none with
  | none =>
    have := (foldl_accumulate_eq_none _ _).1 hacc
    exact absurd (this.2 _ hmem) (by simp)
  | some e' =>
    rw [hacc] at hpp
    exact ⟨e', pre, post, rfl, hpp⟩

theorem accumulated_error_entries_witness :
    ∃ data e s' pre post,
      (ReadPM2120Data (RTUClient.ofFun frequencyTimeout) 1).run () =
        .ok ((data, some e), s') ∧
      e.Error = pre ++ "đọc Frequency lỗi: timeout" ++ post := by
  obtain ⟨data, err, s', hrun, -, hentry⟩ :=
    accumulated_error_entries (RTUClient.ofFun frequencyTimeout) 1 ()
  have hx : ¬ (responseTo (RTUClient.ofFun frequencyTimeout) 1 () .Frequency).okFor
      PMField.Frequency.quantity := by
    rw [responseTo_ofFun]
    decide
  obtain ⟨e, pre, post, rfl, hmsg⟩ := hentry .Frequency hx
  exact ⟨data, e, s', pre, post, hrun, hmsg⟩

/-- Counterexample to C14 as stated. Two transports that differ in the underlying
error of the failed field `CurrentA` (an error `timeout` that wraps nothing, and
an error of the same text that wraps `EOF`) give the same returned error, so the
underlying error of `CurrentA` cannot be recovered from it: it survives as text
only. And when `THDCurrentA` alone fails, the name `CurrentA` of a field that
did not fail (it is non-nil in the snapshot) occurs in the text of the error. -/
theorem accumulated_error_not_recoverable :
    Except.map (fun o => o.1.2)
      ((ReadPM2120Data (RTUClient.ofFun (twoFailures (.errorString "timeout"))) 1).run ()) =
      .ok (some (.wrapError "<nil>; đọc CurrentA lỗi: timeout; đọc CurrentB lỗi: timeout"
        (.wrapError "đọc CurrentB lỗi: timeout" (.errorString "timeout")))) ∧
    Except.map (fun o => o.1.2)
      ((ReadPM2120Data (RTUClient.ofFun
        (twoFailures (.wrapError "timeout" (.errorString "EOF")))) 1).run ()) =
      .ok (some (.wrapError "<nil>; đọc CurrentA lỗi: timeout; đọc CurrentB lỗi: timeout"
        (.wrapError "đọc CurrentB lỗi: timeout" (.errorString "timeout")))) ∧
    GoError.errorString "timeout" ≠ .wrapError "timeout" (.errorString "EOF") ∧
    Except.map (fun o => (o.1.1.CurrentA, o.1.2))
      ((ReadPM2120Data (RTUClient.ofFun thdCurrentATimeout) 1).run ()) =
      .ok (some ⟨0⟩, some (.wrapError ("<nil>; đọc THD" ++ "CurrentA" ++ " lỗi: timeout")
        (.wrapError "đọc THDCurrentA lỗi: timeout" (.errorString "timeout")))) := by
  refine ⟨rfl, rfl, by decide, rfl⟩

/-- C17: with 2 registers for every `FLOAT32` constant and 4 registers for every
`INT64` energy constant, the register ranges of any two of the 45 address
constants are disjoint and every range ends below `2^16`; the table holds the
address and quantity of every read field, and `addrCurrentN`. -/
theorem register_ranges_disjoint :
    registerTable.Pairwise disjointRegisters ∧
    (∀ e ∈ registerTable, e.1 + e.2 - 1 < 2 ^ 16) ∧
    registerTable.length = 45 ∧
    (∀ f : PMField, (f.addr, f.quantity) ∈ registerTable) ∧
    (addrCurrentN, 2) ∈ registerTable := by
  refine ⟨by decide, by decide, rfl, ?_, by decide⟩
  intro f
  cases f <;> decide

/-! ## Length mismatch against transport failure: claim C15 -/

/-- C15: in each helper a response of the wrong length is recovered like a
transport error (nil value, non-nil error, normal return), with an error that
wraps nothing and carries the fixed length-mismatch text, whereas the error of a
transport failure wraps the error of the transport; the two errors are never
equal. -/
theorem length_mismatch_distinct_reason {σ : Type} (client : RTUClient σ)
    (slaveID addr : Nat) (fieldName : String) (s : σ) :
    ((client.transport slaveID addr 2 s).1.err = none →
      (client.transport slaveID addr 2 s).1.results.length ≠ 4 →
      ∃ e s', (readAndDecodeFloat32 client slaveID addr fieldName).run s = .ok ((none, some e), s') ∧
        e.Unwrap = none ∧
        e.Error = "đọc " ++ fieldName ++ " lỗi: độ dài kết quả không đúng") ∧
    (∀ te, (client.transport slaveID addr 2 s).1.err = some te →
      ∃ e s', (readAndDecodeFloat32 client slaveID addr fieldName).run s = .ok ((none, some e), s') ∧
        e.Unwrap = some te ∧
        e.Error = "đọc " ++ fieldName ++ " lỗi: " ++ te.Error) ∧
    ((client.transport slaveID addr 4 s).1.err = none →
      (client.transport slaveID addr 4 s).1.results.length ≠ 8 →
      ∃ e s', (readAndDecodeInt64 client slaveID addr fieldName).run s = .ok ((none, some e), s') ∧
        e.Unwrap = none ∧
        e.Error = "đọc " ++ fieldName ++ " lỗi: độ dài kết quả không đúng") ∧
    (∀ te, (client.transport slaveID addr 4 s).1.err = some te →
      ∃ e s', (readAndDecodeInt64 client slaveID addr fieldName).run s = .ok ((none, some e), s') ∧
        e.Unwrap = some te ∧
        e.Error = "đọc " ++ fieldName ++ " lỗi: " ++ te.Error) ∧
    ((client.transport slaveID addr 1 s).1.err = none →
      (client.transport slaveID addr 1 s).1.results.length ≠ 2 →
      ∃ e s', (readAndDecodeUint16 client slaveID addr fieldName).run s = .ok ((none, some e), s') ∧
        e.Unwrap = none ∧
        e.Error = "đọc " ++ fieldName ++ " lỗi: độ dài kết quả không đúng") ∧
    (∀ te, (client.transport slaveID addr 1 s).1.err = some te →
      ∃ e s', (readAndDecodeUint16 client slaveID addr fieldName).run s = .ok ((none, some e), s') ∧
        e.Unwrap = some te ∧
        e.Error = "đọc " ++ fieldName ++ " lỗi: " ++ te.Error) ∧
    (∀ (n1 n2 : String) (te : GoError),
      GoError.errorString ("đọc " ++ n1 ++ " lỗi: độ dài kết quả không đúng") ≠
        GoError.wrapError ("đọc " ++ n2 ++ " lỗi: " ++ te.Error) te) := by
  refine ⟨?_, ?_, ?_, ?_, ?_, ?_, ?_⟩
  · intro herr hlen
    rcases float32Outcome_cases fieldName (client.transport slaveID addr 2 s).1 with
      ⟨hok, -⟩ | ⟨-, hout⟩
    · exact absurd hok.2 hlen
    · rw [herr] at hout
      exact ⟨.errorString ("đọc " ++ fieldName ++ " lỗi: độ dài kết quả không đúng"), _,
        by rw [readAndDecodeFloat32_run, hout], rfl, rfl⟩
  · intro te herr
    rcases float32Outcome_cases fieldName (client.transport slaveID addr 2 s).1 with
      ⟨hok, -⟩ | ⟨-, hout⟩
    · rw [hok.1] at herr
      exact absurd herr (by simp)
    · rw [herr] at hout
      exact ⟨.wrapError ("đọc " ++ fieldName ++ " lỗi: " ++ te.Error) te, _,
        by rw [readAndDecodeFloat32_run, hout], rfl, rfl⟩
  · intro herr hlen
    rcases int64Outcome_cases fieldName (client.transport slaveID addr 4 s).1 with
      ⟨hok, -⟩ | ⟨-, hout⟩
    · exact absurd hok.2 hlen
    · rw [herr] at hout
      exact ⟨.errorString ("đọc " ++ fieldName ++ " lỗi: độ dài kết quả không đúng"), _,
        by rw [readAndDecodeInt64_run, hout], rfl, rfl⟩
  · intro te herr
    rcases int64Outcome_cases fieldName (client.transport slaveID addr 4 s).1 with
      ⟨hok, -⟩ | ⟨-, hout⟩
    · rw [hok.1] at herr
      exact absurd herr (by simp)
    · rw [herr] at hout
      exact ⟨.wrapError ("đọc " ++ fieldName ++ " lỗi: " ++ te.Error) te, _,
        by rw [readAndDecodeInt64_run, hout], rfl, rfl⟩
  · intro herr hlen
    rcases uint16Outcome_cases fieldName (client.transport slaveID addr 1 s).1 with
      ⟨hok, -⟩ | ⟨-, hout⟩
    · exact absurd hok.2 hlen
    · rw [herr] at hout
      exact ⟨.errorString ("đọc " ++ fieldName ++ " lỗi: độ dài kết quả không đúng"), _,
        by rw [readAndDecodeUint16_run, hout], rfl, rfl⟩
  · intro te herr
    rcases uint16Outcome_cases fieldName (client.transport slaveID addr 1 s).1 with
      ⟨hok, -⟩ | ⟨-, hout⟩
    · rw [hok.1] at herr
      exact absurd herr (by simp)
    · rw [herr] at hout
      exact ⟨.wrapError ("đọc " ++ fieldName ++ " lỗi: " ++ te.Error) te, _,
        by rw [readAndDecodeUint16_run, hout], rfl, rfl⟩
  · intro n1 n2 te h
    cases h

theorem length_mismatch_distinct_reason_witness :
    (∃ e s', (readAndDecodeFloat32 threeBytes 1 addrCurrentA "CurrentA").run 0 =
        .ok ((none, some e), s') ∧ e.Unwrap = none ∧
        e.Error = "đọc " ++ "CurrentA" ++ " lỗi: độ dài kết quả không đúng") ∧
    (∃ e s', (readAndDecodeFloat32 (RTUClient.ofFun timeoutTransport) 1 addrCurrentA
        "CurrentA").run () = .ok ((none, some e), s') ∧
        e.Unwrap = some (.errorString "timeout") ∧
        e.Error = "đọc " ++ "CurrentA" ++ " lỗi: " ++ (GoError.errorString "timeout").Error) :=
  ⟨(length_mismatch_distinct_reason threeBytes 1 addrCurrentA "CurrentA" 0).1 rfl (by decide),
   (length_mismatch_distinct_reason (RTUClient.ofFun timeoutTransport) 1 addrCurrentA
      "CurrentA" ()).2.1 (.errorString "timeout") rfl⟩

/-! ## Register writes: claim C20 -/

theorem set_at_length {α : Type} (pre : List α) (a x : α) (rest : List α) :
    (pre ++ a :: rest).set pre.length x = pre ++ x :: rest := by
  induction pre with
  | nil => rfl
  | cons p pre ih => simp [ih]

theorem PutUint16At_append (pre : List Byte) (a b : Byte) (rest : List Byte) (v : Nat) :
    PutUint16At (pre ++ a :: b :: rest) pre.length v =
      .ok (pre ++ BigEndian.PutUint16 v ++ rest) := by
  unfold PutUint16At
  rw [if_pos (by simp)]
  rw [set_at_length]
  have h := set_at_length (pre ++ [BigEndian.byte (v >>> 8)]) b (BigEndian.byte v) rest
  simp only [List.length_append, List.length_singleton, List.append_assoc,
    List.singleton_append] at h
  rw [h]
  simp [BigEndian.PutUint16]

theorem fillRegisters_eq (vs : List Nat) (i : Nat) (pre : List Byte)
    (hpre : pre.length = i * 2) :
    fillRegisters vs i (pre ++ List.replicate (vs.length * 2) 0) =
      .ok (pre ++ vs.flatMap BigEndian.PutUint16) := by
  induction vs generalizing i pre with
  | nil => simp [fillRegisters]
  | cons v vs ih =>
    have hrep : List.replicate ((v :: vs).length * 2) (0 : Byte) =
        0 :: 0 :: List.replicate (vs.length * 2) 0 := by
      simp [List.length_cons, Nat.succ_mul, List.replicate_succ]
    rw [hrep, fillRegisters, ← hpre, PutUint16At_append]
    show fillRegisters vs (i + 1) _ = _
    rw [ih (i + 1) (pre ++ BigEndian.PutUint16 v) (by
      simp [BigEndian.PutUint16, hpre]; omega)]
    simp [List.flatMap_cons]

theorem bytesToUint16_PutUint16 (v : Nat) (hv : v < 2 ^ 16) :
    bytesToUint16 (BigEndian.PutUint16 v) = .ok v := by
  simp only [bytesToUint16, BigEndian.PutUint16, Uint16_eq, BigEndian.byte,
    Nat.shiftRight_eq_div_pow]
  congr 1
  omega

theorem flatMap_PutUint16_pair (vs : List Nat) (i v : Nat) (h : vs[i]? = some v) :
    ((vs.flatMap BigEndian.PutUint16).drop (2 * i)).take 2 = BigEndian.PutUint16 v := by
  induction vs generalizing i with
  | nil => simp at h
  | cons w vs ih =>
    cases i with
    | zero =>
      simp only [List.getElem?_cons_zero, Option.some.injEq] at h
      subst h
      simp [List.flatMap_cons, BigEndian.PutUint16]
    | succ i =>
      simp only [List.getElem?_cons_succ] at h
      have h2 : 2 * (i + 1) = (BigEndian.PutUint16 w).length + 2 * i := by
        simp [BigEndian.PutUint16]; omega
      rw [List.flatMap_cons, h2, List.drop_append]
      exact ih i h

theorem flatMap_PutUint16_length (vs : List Nat) :
    (vs.flatMap BigEndian.PutUint16).length = 2 * vs.length := by
  induction vs with
  | nil => rfl
  | cons w vs ih =>
    rw [List.flatMap_cons, List.length_append, ih]
    simp [BigEndian.PutUint16]
    omega

/-- C20: for every list `vs` of at most 65535 `uint16` values,
`Client.WriteMultipleRegisters` hands the transport the quantity `len(vs)` and a
payload of `2 * len(vs)` bytes whose bytes `2i`, `2i + 1` are the big-endian
encoding of `vs[i]`; `bytesToUint16` of each consecutive pair gives `vs[i]` back.
The error of the transport is returned. -/
theorem WriteMultipleRegisters_payload {σ : Type} (c : Client σ) (address : Nat)
    (vs : List Nat) (s : σ) (hlen : vs.length ≤ 65535) (hvs : ∀ v ∈ vs, v < 2 ^ 16) :
    ∃ payload : List Byte,
      (c.WriteMultipleRegisters address vs).run s =
        .ok ((c.client.WriteMultipleRegisters address vs.length payload s).1.err,
             (c.client.WriteMultipleRegisters address vs.length payload s).2) ∧
      payload = vs.flatMap BigEndian.PutUint16 ∧
      payload.length = 2 * vs.length ∧
      ∀ i v, vs[i]? = some v →
        (payload.drop (2 * i)).take 2 = [BigEndian.byte (v / 256), BigEndian.byte v] ∧
        bytesToUint16 ((payload.drop (2 * i)).take 2) = .ok v := by
  refine ⟨vs.flatMap BigEndian.PutUint16, ?_, rfl, flatMap_PutUint16_length vs, ?_⟩
  · have hfill := fillRegisters_eq vs 0 [] rfl
    simp only [List.nil_append] at hfill
    have hq : vs.length % 2 ^ 16 = vs.length := Nat.mod_eq_of_lt (by omega)
    simp only [Client.WriteMultipleRegisters, hfill, hq, liftM, monadLift,
      MonadLift.monadLift, StateT.run_bind, StateT.run_pure]
    rfl
  · intro i v hi
    have hv : v < 2 ^ 16 := hvs v (List.getElem?_mem hi)
    rw [flatMap_PutUint16_pair vs i v hi]
    exact ⟨by simp [BigEndian.PutUint16, Nat.shiftRight_eq_div_pow],
      bytesToUint16_PutUint16 v hv⟩

theorem WriteMultipleRegisters_payload_witness :
    ∃ payload : List Byte,
      (recordingClient.WriteMultipleRegisters 5 [0x1234, 0xABCD, 1]).run none =
        .ok (none, some (3, payload)) ∧
      payload = [0x12, 0x34, 0xAB, 0xCD, 0x00, 0x01] ∧
      bytesToUint16 ((payload.drop (2 * 1)).take 2) = .ok 0xABCD := by
  obtain ⟨payload, hrun, hp, -, hpair⟩ :=
    WriteMultipleRegisters_payload recordingClient 5 [0x1234, 0xABCD, 1] none
      (by decide) (by decide)
  exact ⟨payload, hrun, hp.trans (by decide), (hpair 1 0xABCD rfl).2⟩

/-! ## Shape of the accumulated error: claim C21 -/

theorem foldl_accumulate_filterMap (g : PMField → Option GoError) (fs : List PMField)
    (acc : Option GoError) :
    (fs.map g).foldl accumulate acc = ((fs.filterMap g).map some).foldl accumulate acc := by
  induction fs generalizing acc with
  | nil => rfl
  | cons f fs ih =>
    cases hg : g f with
    | none =>
      rw [List.map_cons, List.foldl_cons, hg, List.filterMap_cons_none hg, ← ih]
      rfl
    | some e =>
      rw [List.map_cons, List.foldl_cons, hg, List.filterMap_cons_some hg, List.map_cons,
        List.foldl_cons, ih]

theorem filter_map_eq_filterMap (g : PMField → Option GoError) (p : PMField → Bool)
    (hp : ∀ f, p f = true ↔ g f ≠ none) (fs : List PMField) :
    (fs.filter p).map g = (fs.filterMap g).map some := by
  induction fs with
  | nil => rfl
  | cons f fs ih =>
    cases hg : g f with
    | none =>
      have hf : ¬ p f = true := fun h => (hp f).1 h hg
      rw [List.filter_cons_of_neg hf, List.filterMap_cons_none hg, ih]
    | some e =>
      have hf : p f = true := (hp f).2 (by rw [hg]; simp)
      rw [List.filter_cons_of_pos hf, List.filterMap_cons_some hg, List.map_cons,
        List.map_cons, hg, ih]

theorem foldl_text_accumulate (es : List GoError) (acc : Option GoError) (e : GoError) :
    ((e :: es).map some).foldl accumulate acc =
      some (.wrapError ((e :: es).foldl (fun text x => text ++ "; " ++ x.Error) (fmtV acc))
        ((e :: es).getLast (List.cons_ne_nil e es))) := by
  induction es generalizing acc e with
  | nil => rfl
  | cons e2 es ih =>
    rw [List.map_cons, List.foldl_cons, ih (accumulate acc (some e)) e2,
      List.getLast_cons (List.cons_ne_nil e2 es), List.foldl_cons, fmtV_accumulate_some]
    rfl

theorem foldl_accumulate_shape (es : List GoError) (h : es ≠ []) :
    (es.map some).foldl accumulate none =
      some (.wrapError (accumulatedText es) (es.getLast h)) := by
  match es, h with
  | e :: es, _ => exact foldl_text_accumulate es none e

/-- C21: in every run of `ReadPM2120Data`, let `e1 .. ek` be the errors of the
failed fields in the order of the reads. With no failure the returned error is
nil; with `k ≥ 1` failures it is the error whose text is the literal `<nil>`
followed by `; ` and the text of `ei` for `i = 1 .. k` in that order, and which
wraps the last error `ek` only: the earlier failures are in the text alone. -/
theorem accumulated_error_shape {σ : Type} (client : RTUClient σ) (slaveID : Nat) (s : σ) :
    ∃ data err s', (ReadPM2120Data client slaveID).run s = .ok ((data, err), s') ∧
      ((PMField.all.filter fun f =>
          decide (¬ (responseTo client slaveID s f).okFor f.quantity)).map
        fun f => f.error (responseTo client slaveID s f)) =
        (failedErrors client slaveID s).map some ∧
      (failedErrors client slaveID s = [] → err = none) ∧
      ∀ h : failedErrors client slaveID s ≠ [],
        err = some (.wrapError (accumulatedText (failedErrors client slaveID s))
          ((failedErrors client slaveID s).getLast h)) ∧
        Option.map GoError.Error err = some (accumulatedText (failedErrors client slaveID s)) ∧
        Option.bind err GoError.Unwrap = some ((failedErrors client slaveID s).getLast h) := by
  obtain ⟨data, hrun, -, -⟩ := ReadPM2120Data_run client slaveID s
  rw [foldl_accumulate_filterMap] at hrun
  refine ⟨data, _, _, hrun, ?_, ?_, ?_⟩
  · exact filter_map_eq_filterMap _ _ (fun f => by
      rw [decide_eq_true_iff, Ne, error_eq_none_iff]) _
  · intro h
    show ((failedErrors client slaveID s).map some).foldl accumulate none = none
    rw [h]
    rfl
  · intro h
    have hs : ((failedErrors client slaveID s).map some).foldl accumulate none =
        some (.wrapError (accumulatedText (failedErrors client slaveID s))
          ((failedErrors client slaveID s).getLast h)) := foldl_accumulate_shape _ h
    refine ⟨hs, ?_, ?_⟩
    · show Option.map GoError.Error
        (((failedErrors client slaveID s).map some).foldl accumulate none) = _
      rw [hs]
      rfl
    · show Option.bind
        (((failedErrors client slaveID s).map some).foldl accumulate none) GoError.Unwrap = _
      rw [hs]
      rfl

theorem accumulated_error_shape_witness :
    ∃ data s', (ReadPM2120Data (RTUClient.ofFun (twoFailures (.errorString "busy"))) 1).run ()
        = .ok ((data, some (.wrapError
            "<nil>; đọc CurrentA lỗi: busy; đọc CurrentB lỗi: timeout"
            (.wrapError "đọc CurrentB lỗi: timeout" (.errorString "timeout")))), s') := by
  obtain ⟨data, err, s', hrun, -, -, hshape⟩ :=
    accumulated_error_shape (RTUClient.ofFun (twoFailures (.errorString "busy"))) 1 ()
  have hf : failedErrors (RTUClient.ofFun (twoFailures (.errorString "busy"))) 1 () =
      [.wrapError "đọc CurrentA lỗi: busy" (.errorString "busy"),
       .wrapError "đọc CurrentB lỗi: timeout" (.errorString "timeout")] := by
    rfl
  have hne : failedErrors (RTUClient.ofFun (twoFailures (.errorString "busy"))) 1 () ≠ [] := by
    rw [hf]
    simp
  obtain ⟨herr, -, -⟩ := hshape hne
  refine ⟨data, s', ?_⟩
  rw [hrun, herr]
  simp only [hf]
  rfl

end Modbus
